import Mathlib

/-!
Verification of the Liberation Circuit LAN networking module
(`n_network.h` / the network module implementation).

The C module is shallowly embedded: the global `network_context_t g_network`
becomes an explicit `NetworkContext` value threaded through pure functions,
machine integers are `Nat` with explicit reductions modulo 2^32 / 2^16 / 2^8
where the C code truncates, byte buffers are `List Nat` (each element a byte
value), fixed-size arrays with an active count (`players[8]` + `player_count`,
`discovered_games[16]` + `discovered_game_count`) become lists whose length is
the count, and external effects (socket creation results, `sendto`/`recvfrom`
outcomes, `time(NULL)`-derived timestamps, the local IP from DNS) become
explicit parameters.  `sendto` outputs are collected into `SentMsg` lists and
callback invocations into `CbEvent` lists so that on-the-wire and callback
behaviour is observable.
-/

namespace LibCirc

/-! ## Byte-level helpers -/

/-- Big-endian (network byte order) serialisation of a 32-bit value, as
produced by `htonl`. -/
def u32be (n : Nat) : List Nat :=
  [n / 16777216 % 256, n / 65536 % 256, n / 256 % 256, n % 256]

/-- Big-endian (network byte order) serialisation of a 16-bit value, as
produced by `htons`. -/
def u16be (n : Nat) : List Nat :=
  [n / 256 % 256, n % 256]

/-- Little-endian serialisation of a 32-bit value: the in-memory layout of a
`uint32_t` on the (little-endian) host, used where the C code memcpys raw
structs or integers into payloads. -/
def u32le (n : Nat) : List Nat :=
  [n % 256, n / 256 % 256, n / 65536 % 256, n / 16777216 % 256]

/-- Little-endian serialisation of a 16-bit value (host in-memory layout). -/
def u16le (n : Nat) : List Nat :=
  [n % 256, n / 256 % 256]

/-- Read a big-endian 32-bit value at offset `i` of a byte buffer, as done by
`ntohl` on a field of the received header. -/
def readU32be (b : List Nat) (i : Nat) : Nat :=
  16777216 * b.getD i 0 + 65536 * b.getD (i+1) 0 + 256 * b.getD (i+2) 0 + b.getD (i+3) 0

/-- Read a big-endian 16-bit value at offset `i`, as done by `ntohs`. -/
def readU16be (b : List Nat) (i : Nat) : Nat :=
  256 * b.getD i 0 + b.getD (i+1) 0

/-- Read a host-order (little-endian) 32-bit value at offset `i`. -/
def readU32le (b : List Nat) (i : Nat) : Nat :=
  b.getD i 0 + 256 * b.getD (i+1) 0 + 65536 * b.getD (i+2) 0 + 16777216 * b.getD (i+3) 0

/-- Read a host-order (little-endian) 16-bit value at offset `i`. -/
def readU16le (b : List Nat) (i : Nat) : Nat :=
  b.getD i 0 + 256 * b.getD (i+1) 0

/-- Unsigned 32-bit subtraction `a - b` with wraparound, as C computes
`get_timestamp() - g_network.last_discovery_time` on `uint32_t`. -/
def u32sub (a b : Nat) : Nat :=
  (a % 4294967296 + (4294967296 - b % 4294967296)) % 4294967296

/-- The observable content of a C string produced by `strncpy(dst, src, cap)`
followed by NUL termination: the bytes of `src` before its first NUL,
truncated to `cap` bytes. -/
def parseCString (data : List Nat) (cap : Nat) : List Nat :=
  (data.take cap).takeWhile (fun b => b ≠ 0)

/-- Pad (or truncate) a byte list to exactly `n` bytes with NULs, modelling a
`char[n]` struct field that was zeroed by `memset` before a `strcpy`. -/
def padTo (n : Nat) (l : List Nat) : List Nat :=
  l.take n ++ List.replicate (n - (l.take n).length) 0

/-- ASCII decimal digits of `n`, as `sprintf` `%d` renders a nonnegative int. -/
def natDigits (n : Nat) : List Nat :=
  (Nat.toDigits 10 n).map Char.toNat

/-! ## Protocol constants (from `n_network.h` and the module) -/

def NETWORK_MAGIC : Nat := 0x4C494243
def NETWORK_PROTOCOL_VERSION : Nat := 1
def NETWORK_MAX_PLAYERS : Nat := 8
def NETWORK_MAX_MESSAGE_SIZE : Nat := 1024
def NETWORK_DISCOVERY_INTERVAL : Nat := 1000
def NETWORK_BROADCAST_PORT : Nat := 7778
def NETWORK_DEFAULT_PORT : Nat := 7777
/-- `sizeof(message_header_t)`: packed `u32 + u16 + u16 + u32 + u32 + u32`. -/
def HEADER_SIZE : Nat := 20
/-- `sizeof(game_info_t)`: `char[64] + char[32] + u32 + u16 + u8 + u8 + u32 + u32`
(no padding needed; offsets 0, 64, 96, 100, 102, 103, 104, 108). -/
def GAME_INFO_SIZE : Nat := 112

def MSG_DISCOVERY_REQUEST : Nat := 1
def MSG_DISCOVERY_RESPONSE : Nat := 2
def MSG_JOIN_REQUEST : Nat := 3
def MSG_JOIN_RESPONSE : Nat := 4
def MSG_PLAYER_LIST : Nat := 5
def MSG_GAME_START : Nat := 6
def MSG_GAME_DATA : Nat := 7
def MSG_PLAYER_DISCONNECT : Nat := 8
def MSG_PING : Nat := 9
def MSG_PONG : Nat := 10
def MSG_CHAT : Nat := 11
def MSG_GAME_STATE_SYNC : Nat := 12
def MSG_TURN_DATA : Nat := 13
def MSG_ERROR : Nat := 14

/-! ## Data model -/

/-- A network address: an IPv4 address and a port, the pair the module uses as
a peer identity key (`sin_addr.s_addr`, `ntohs(sin_port)`). -/
structure Addr where
  ip : Nat
  port : Nat
deriving DecidableEq, Repr

/-- `network_state_t`. -/
inductive NetworkState where
  | disconnected
  | hosting
  | connecting
  | connected
  | error
deriving DecidableEq, Repr

/-- `network_player_t` (the `hostname` text field produced by `inet_ntop` is
modelled by the numeric IP it renders). -/
structure NetworkPlayer where
  player_id : Nat
  name : List Nat
  hostname : Nat
  ip_address : Nat
  port : Nat
  last_ping : Nat
  connected : Bool
deriving DecidableEq, Repr

/-- `game_info_t`. -/
structure GameInfo where
  game_name : List Nat
  host_name : List Nat
  host_ip : Nat
  host_port : Nat
  current_players : Nat
  max_players : Nat
  game_id : Nat
  last_seen : Nat
deriving DecidableEq, Repr

/-- `network_context_t` (socket fields are `Option Nat`: `none` is
`INVALID_SOCKET_VALUE`).  `id_counter` is the static `counter` local of
`_network_generate_player_id`, which is process-global state. -/
structure NetworkContext where
  state : NetworkState
  server_socket : Option Nat
  broadcast_socket : Option Nat
  local_port : Nat
  players : List NetworkPlayer
  local_player_id : Nat
  game_name : List Nat
  game_id : Nat
  is_host : Bool
  discovered_games : List GameInfo
  last_discovery_time : Nat
  next_sequence : Nat
  bytes_sent : Nat
  bytes_received : Nat
  messages_sent : Nat
  messages_received : Nat
  errors : Nat
  id_counter : Nat
deriving DecidableEq, Repr

/-- Which of the optional `network_callbacks_t` entries are non-NULL. -/
structure CallbackSet where
  on_player_joined : Bool
  on_player_left : Bool
  on_game_data : Bool
  on_chat : Bool
  on_error : Bool
deriving DecidableEq, Repr

/-- An observable invocation of one of the registered callbacks. -/
inductive CbEvent where
  | playerJoined (id : Nat) (name : List Nat)
  | playerLeft (id : Nat)
  | gameData (id : Nat) (data : List Nat)
  | chat (id : Nat) (msg : List Nat)
deriving DecidableEq, Repr

/-- A datagram successfully handed to `sendto`: destination, message type and
payload bytes (the framed bytes themselves are `sendMessageFrame`). -/
structure SentMsg where
  dest : Addr
  mtype : Nat
  payload : List Nat
deriving DecidableEq, Repr

/-- Outcome of one `recvfrom` call, an external input: would-block (no data),
a socket error other than would-block, or one received datagram. -/
inductive RecvIn where
  | wouldBlock
  | sockErr
  | dgram (buf : List Nat)
deriving DecidableEq, Repr

/-- Result of `_network_receive_message`: `noData` is the return value 0
(would-block), `invalid` is -1 (error / rejected message), `ok` is 1 with the
extracted type and payload bytes written to the caller's buffers. -/
inductive RecvResult where
  | noData
  | invalid
  | ok (mtype : Nat) (payload : List Nat)
deriving DecidableEq, Repr

/-! ## Codec -/

/-- The framed buffer `_network_send_message` builds: the packed header
(magic, version, type, payload size, sequence, timestamp, all in network byte
order) followed by the payload bytes. -/
def sendMessageFrame (mtype seq ts : Nat) (payload : List Nat) : List Nat :=
  u32be NETWORK_MAGIC ++ u16be NETWORK_PROTOCOL_VERSION ++ u16be mtype ++
    u32be payload.length ++ u32be seq ++ u32be ts ++ payload

/-- The validation-and-extraction core of `_network_receive_message`, acting
on one received datagram of at least one byte: reject (returning -1 in C) if
shorter than the header, on magic or version mismatch, or if the declared
payload size exceeds the maximum or disagrees with the received length;
otherwise extract type and payload. -/
def decodeCore (buf : List Nat) : RecvResult :=
  if buf.length < HEADER_SIZE then .invalid
  else if readU32be buf 0 ≠ NETWORK_MAGIC then .invalid
  else if readU16be buf 4 ≠ NETWORK_PROTOCOL_VERSION then .invalid
  else if readU32be buf 8 > NETWORK_MAX_MESSAGE_SIZE ∨
      buf.length ≠ HEADER_SIZE + readU32be buf 8 then .invalid
  else .ok (readU16be buf 6) (buf.drop HEADER_SIZE)

/-- `_network_receive_message` at the context level: a would-block `recvfrom`
returns 0 with no state change; a real socket error or a rejected datagram
increments the error counter and returns -1 (writing nothing into the
caller's payload buffer); a validated datagram updates the receive statistics
and returns its type and payload. -/
def network_receive_message (c : NetworkContext) (r : RecvIn) :
    NetworkContext × RecvResult :=
  match r with
  | .wouldBlock => (c, .noData)
  | .sockErr => ({ c with errors := c.errors + 1 }, .invalid)
  | .dgram buf =>
    match decodeCore buf with
    | .invalid => ({ c with errors := c.errors + 1 }, .invalid)
    | .ok t p =>
      ({ c with bytes_received := c.bytes_received + buf.length,
                messages_received := c.messages_received + 1 }, .ok t p)
    | .noData => (c, .noData)

/-- `_network_send_message` at the context level.  A payload over the maximum
size is refused before the header is built.  Otherwise the sequence counter
is consumed; the send succeeds only if the socket is valid and `sendto`
transmits the whole frame (`ok`), updating the send statistics, and any
failure increments the error counter. -/
def network_send_message (c : NetworkContext) (sock : Option Nat) (dest : Addr)
    (mtype : Nat) (payload : List Nat) (ok : Bool) :
    NetworkContext × List SentMsg × Bool :=
  if payload.length > NETWORK_MAX_MESSAGE_SIZE then (c, [], false)
  else
    let c1 := { c with next_sequence := c.next_sequence + 1 }
    if sock.isSome && ok then
      ({ c1 with bytes_sent := c1.bytes_sent + (HEADER_SIZE + payload.length),
                 messages_sent := c1.messages_sent + 1 },
       [⟨dest, mtype, payload⟩], true)
    else
      ({ c1 with errors := c1.errors + 1 }, [], false)

/-! ## Struct serialisation for `game_info_t` payloads -/

/-- The in-memory bytes of a `game_info_t` value (little-endian host), as
memcpyd into a discovery-response payload.  String fields occupy their full
zero-padded `char[64]` / `char[32]` arrays. -/
def encodeGameInfo (g : GameInfo) : List Nat :=
  padTo 64 g.game_name ++ padTo 32 g.host_name ++ u32le g.host_ip ++
    u16le g.host_port ++ [g.current_players % 256] ++ [g.max_players % 256] ++
    u32le g.game_id ++ u32le g.last_seen

/-- Reinterpreting a 112-byte payload as a `game_info_t`, as the
discovery-response handler's cast `(game_info_t*)data` does.  The raw
(padded) name arrays are kept verbatim, matching the struct copy. -/
def parseGameInfo (d : List Nat) : GameInfo :=
  { game_name := d.take 64
    host_name := (d.drop 64).take 32
    host_ip := readU32le d 96
    host_port := readU16le d 100
    current_players := d.getD 102 0
    max_players := d.getD 103 0
    game_id := readU32le d 104
    last_seen := readU32le d 108 }

/-! ## Id generation -/

/-- `_network_generate_player_id`: `(get_timestamp() & 0xFFFFFF00) |
(counter++ & 0xFF)`, where `ts` is the current `uint32_t` timestamp and `k`
the static counter value consumed by this call. -/
def network_generate_player_id (ts k : Nat) : Nat :=
  Nat.lor (Nat.land (ts % 4294967296) 0xFFFFFF00) (k % 256)

/-- `_network_generate_game_id`: the current `uint32_t` timestamp. -/
def network_generate_game_id (ts : Nat) : Nat :=
  ts % 4294967296

/-! ## Roster and registry helpers -/

/-- The sender-attribution scan shared by the `MSG_GAME_DATA` and `MSG_CHAT`
branches: the id of the first roster entry matching the sender's address and
port, or 0 ("unknown") if none matches. -/
def lookupByAddr (ps : List NetworkPlayer) (ip port : Nat) : Nat :=
  match ps with
  | [] => 0
  | p :: rest =>
    if p.ip_address = ip ∧ p.port = port then p.player_id
    else lookupByAddr rest ip port

/-- The `MSG_PLAYER_DISCONNECT` loop: find the first roster entry matching the
sender's address and port; if found, fire `on_player_left` (when registered)
with its id and remove it, shifting the remaining entries down (order
preserved).  Returns the new roster and the callback events. -/
def rosterRemove (cbLeft : Bool) (ps : List NetworkPlayer) (ip port : Nat) :
    List NetworkPlayer × List CbEvent :=
  match ps with
  | [] => ([], [])
  | p :: rest =>
    if p.ip_address = ip ∧ p.port = port then
      (rest, if cbLeft then [.playerLeft p.player_id] else [])
    else
      ((p :: (rosterRemove cbLeft rest ip port).1),
       (rosterRemove cbLeft rest ip port).2)

/-- The `MSG_DISCOVERY_RESPONSE` registry update as performed once the guard
has passed: overwrite the first entry with the same `game_id` in place, or
append at the end if no entry matches. -/
def registryInsert (gs : List GameInfo) (g : GameInfo) : List GameInfo :=
  match gs with
  | [] => [g]
  | h :: t => if h.game_id = g.game_id then g :: t else h :: registryInsert t g

/-- "Player" (the default join payload / name stem). -/
def playerLit : List Nat := [80, 108, 97, 121, 101, 114]

/-- "Host" (the host_name the discovery reply advertises). -/
def hostLit : List Nat := [72, 111, 115, 116]

/-- "Liberation Circuit Game" (the default game name set by `network_init`). -/
def defaultGameName : List Nat :=
  [76, 105, 98, 101, 114, 97, 116, 105, 111, 110, 32, 67, 105, 114, 99, 117,
   105, 116, 32, 71, 97, 109, 101]

/-- The name given to a joining player: the join payload as a C string
truncated to 31 bytes if the payload is nonempty, else `sprintf("Player%d",
player_count + 1)`. -/
def joinName (data : List Nat) (count : Nat) : List Nat :=
  if data ≠ [] then parseCString data 31 else playerLit ++ natDigits (count + 1)

/-! ## Message dispatch (`_network_handle_message`) -/

/-- The received copy of a discovery response with its `last_seen` stamped to
the current timestamp, as the handler mutates it before storing. -/
def refreshSeen (g : GameInfo) (ts : Nat) : GameInfo :=
  { g with last_seen := ts }

/-- The `MSG_DISCOVERY_REQUEST` branch body (guard already passed): reply to
the requester, over the discovery socket, with the session advertisement. -/
def handleDiscoveryRequest (c : NetworkContext) (src : Addr) (localIp : Nat)
    (sOk : Bool) : NetworkContext × List SentMsg × List CbEvent :=
  ((network_send_message c c.broadcast_socket src MSG_DISCOVERY_RESPONSE
      (encodeGameInfo
        { game_name := c.game_name, host_name := hostLit, host_ip := localIp,
          host_port := c.local_port, current_players := c.players.length,
          max_players := NETWORK_MAX_PLAYERS, game_id := c.game_id,
          last_seen := 0 }) sOk).1,
   (network_send_message c c.broadcast_socket src MSG_DISCOVERY_RESPONSE
      (encodeGameInfo
        { game_name := c.game_name, host_name := hostLit, host_ip := localIp,
          host_port := c.local_port, current_players := c.players.length,
          max_players := NETWORK_MAX_PLAYERS, game_id := c.game_id,
          last_seen := 0 }) sOk).2.1,
   [])

/-- The id the join-request handler assigns: `_network_generate_player_id`
at the current timestamp and counter. -/
def joinPid (c : NetworkContext) (ts : Nat) : Nat :=
  network_generate_player_id ts c.id_counter

/-- The roster entry the join-request handler creates for the sender. -/
def joinNewPlayer (c : NetworkContext) (src : Addr) (data : List Nat)
    (ts : Nat) : NetworkPlayer :=
  { player_id := joinPid c ts, name := joinName data c.players.length,
    hostname := src.ip, ip_address := src.ip, port := src.port,
    last_ping := ts, connected := true }

/-- The context after the join-request handler has appended the new peer and
consumed one id-counter value. -/
def joinReqCtx (c : NetworkContext) (src : Addr) (data : List Nat)
    (ts : Nat) : NetworkContext :=
  { c with players := c.players ++ [joinNewPlayer c src data ts],
           id_counter := c.id_counter + 1 }

/-- The `MSG_JOIN_REQUEST` branch body (guard already passed): append the new
peer with a freshly generated id, reply to the sender with the assigned id,
and fire `on_player_joined` when registered. -/
def handleJoinRequest (c : NetworkContext) (cbs : CallbackSet) (src : Addr)
    (data : List Nat) (ts : Nat) (sOk : Bool) :
    NetworkContext × List SentMsg × List CbEvent :=
  ((network_send_message (joinReqCtx c src data ts)
      (joinReqCtx c src data ts).server_socket src MSG_JOIN_RESPONSE
      (u32le (joinPid c ts)) sOk).1,
   (network_send_message (joinReqCtx c src data ts)
      (joinReqCtx c src data ts).server_socket src MSG_JOIN_RESPONSE
      (u32le (joinPid c ts)) sOk).2.1,
   if cbs.on_player_joined then
     [.playerJoined (joinPid c ts) (joinName data c.players.length)]
   else [])

/-- `_network_handle_message`: dispatch one validated inbound message.
External inputs: the sender address `src`, the registered-callback set `cbs`,
the current timestamp `ts`, the local IP `localIp` (what
`network_get_local_ip` would return) and the success `sOk` of the single
`sendto` this dispatch may perform.  Returns the updated context, the
datagrams sent and the callbacks fired (in that order of occurrence). -/
def network_handle_message (c : NetworkContext) (cbs : CallbackSet) (src : Addr)
    (mtype : Nat) (data : List Nat) (ts localIp : Nat) (sOk : Bool) :
    NetworkContext × List SentMsg × List CbEvent :=
  if mtype = MSG_DISCOVERY_REQUEST then
    if c.is_host = true ∧ c.state = .hosting then
      handleDiscoveryRequest c src localIp sOk
    else (c, [], [])
  else if mtype = MSG_DISCOVERY_RESPONSE then
    if data.length = GAME_INFO_SIZE ∧ c.discovered_games.length < 16 then
      ({ c with discovered_games :=
          registryInsert c.discovered_games (refreshSeen (parseGameInfo data) ts) },
       [], [])
    else (c, [], [])
  else if mtype = MSG_JOIN_REQUEST then
    if c.is_host = true ∧ c.players.length < NETWORK_MAX_PLAYERS then
      handleJoinRequest c cbs src data ts sOk
    else (c, [], [])
  else if mtype = MSG_JOIN_RESPONSE then
    if c.state = .connecting ∧ data.length = 4 then
      ({ c with local_player_id := readU32le data 0, state := .connected }, [], [])
    else (c, [], [])
  else if mtype = MSG_GAME_DATA then
    if cbs.on_game_data then
      (c, [], [.gameData (lookupByAddr c.players src.ip src.port) data])
    else (c, [], [])
  else if mtype = MSG_CHAT then
    if cbs.on_chat ∧ data ≠ [] then
      (c, [], [.chat (lookupByAddr c.players src.ip src.port) data])
    else (c, [], [])
  else if mtype = MSG_PLAYER_DISCONNECT then
    ({ c with players :=
        (rosterRemove cbs.on_player_left c.players src.ip src.port).1 }, [],
     (rosterRemove cbs.on_player_left c.players src.ip src.port).2)
  else (c, [], [])

/-! ## Public API operations -/

/-- The context right after `network_init`: zeroed, disconnected, invalid
sockets, default port, sequence 1, fresh game and player ids, default game
name.  `network_init` consumes id counter value 1, leaving the static counter
at 2. -/
def initCtx (ts : Nat) : NetworkContext :=
  { state := .disconnected, server_socket := none, broadcast_socket := none,
    local_port := NETWORK_DEFAULT_PORT, players := [],
    local_player_id := network_generate_player_id ts 1,
    game_name := defaultGameName, game_id := network_generate_game_id ts,
    is_host := false, discovered_games := [], last_discovery_time := 0,
    next_sequence := 1, bytes_sent := 0, bytes_received := 0,
    messages_sent := 0, messages_received := 0, errors := 0, id_counter := 2 }

/-- `network_host_game`.  External inputs: the results of the two socket
creations (`none` = failure) and bind attempts.  Failure at any step releases
the partially acquired sockets and leaves the state `Disconnected`. -/
def network_host_game (c : NetworkContext) (gname : Option (List Nat))
    (port : Nat) (s1 : Option Nat) (b1 : Bool) (s2 : Option Nat) (b2 : Bool) :
    NetworkContext × Bool :=
  if c.state = .disconnected then
    match s1 with
    | none => ({ c with server_socket := none }, false)
    | some sv =>
      if b1 = false then ({ c with server_socket := none }, false)
      else
        match s2 with
        | none => ({ c with server_socket := none, broadcast_socket := none }, false)
        | some bc =>
          if b2 = false then
            ({ c with server_socket := none, broadcast_socket := none }, false)
          else
            ({ c with server_socket := some sv, broadcast_socket := some bc,
                      local_port := port, is_host := true, state := .hosting,
                      players := [],
                      game_name := match gname with
                        | some g => parseCString g 63
                        | none => c.game_name }, true)
  else (c, false)

/-- The join-request payload: the caller's player name (or "Player") as a
NUL-terminated C string, `strlen+1` bytes. -/
def joinData (pname : Option (List Nat)) : List Nat :=
  (match pname with
    | some n => parseCString n 63
    | none => playerLit) ++ [0]

/-- The join-request transmission of `network_join_game`: the freshly created
client socket is installed and the request sent through it. -/
def joinSend (c : NetworkContext) (a : Addr) (pname : Option (List Nat))
    (s : Nat) (ok : Bool) : NetworkContext × List SentMsg × Bool :=
  network_send_message { c with server_socket := some s } (some s) a
    MSG_JOIN_REQUEST (joinData pname) ok

/-- `network_join_game`.  External inputs: the resolved host address (`none` =
DNS failure), the client socket creation result and the `sendto` outcome of
the join request.  On success the state becomes `Connecting`; on failure the
client socket is released and the state stays `Disconnected`. -/
def network_join_game (c : NetworkContext) (resolved : Option Addr)
    (pname : Option (List Nat)) (sock : Option Nat) (ok : Bool) :
    NetworkContext × List SentMsg × Bool :=
  if c.state = .disconnected then
    match sock with
    | none => ({ c with server_socket := none }, [], false)
    | some s =>
      match resolved with
      | none => ({ c with server_socket := none }, [], false)
      | some a =>
        if (joinSend c a pname s ok).2.2 then
          ({ (joinSend c a pname s ok).1 with is_host := false, state := .connecting },
           (joinSend c a pname s ok).2.1, true)
        else
          ({ (joinSend c a pname s ok).1 with server_socket := none },
           (joinSend c a pname s ok).2.1, false)
  else (c, [], false)

/-- The loop body of `network_send_to_all`: send to every connected roster
entry via the server socket, counting successes.  `oks i` is the `sendto`
outcome for the send attempted at roster index `i`. -/
def sendToAllLoop (c : NetworkContext) (ps : List NetworkPlayer) (i : Nat)
    (mtype : Nat) (payload : List Nat) (oks : Nat → Bool) :
    NetworkContext × List SentMsg × Nat :=
  match ps with
  | [] => (c, [], 0)
  | q :: rest =>
    if q.connected then
      ((sendToAllLoop (network_send_message c c.server_socket
          ⟨q.ip_address, q.port⟩ mtype payload (oks i)).1 rest (i+1) mtype
          payload oks).1,
       (network_send_message c c.server_socket ⟨q.ip_address, q.port⟩ mtype
          payload (oks i)).2.1 ++
         (sendToAllLoop (network_send_message c c.server_socket
            ⟨q.ip_address, q.port⟩ mtype payload (oks i)).1 rest (i+1) mtype
            payload oks).2.1,
       (if (network_send_message c c.server_socket ⟨q.ip_address, q.port⟩
            mtype payload (oks i)).2.2 then 1 else 0) +
         (sendToAllLoop (network_send_message c c.server_socket
            ⟨q.ip_address, q.port⟩ mtype payload (oks i)).1 rest (i+1) mtype
            payload oks).2.2)
    else
      sendToAllLoop c rest (i+1) mtype payload oks

/-- `network_send_to_all`: fails immediately (returning 0) if the server
socket is invalid, otherwise sends to every connected roster entry and
returns the success count. -/
def network_send_to_all (c : NetworkContext) (mtype : Nat) (payload : List Nat)
    (oks : Nat → Bool) : NetworkContext × List SentMsg × Nat :=
  if c.server_socket = none then (c, [], 0)
  else sendToAllLoop c c.players 0 mtype payload oks

/-- `network_send_to_player`: fails if the server socket is invalid or no
roster entry has the given id, else sends to the first matching entry. -/
def network_send_to_player (c : NetworkContext) (pid : Nat) (mtype : Nat)
    (payload : List Nat) (ok : Bool) : NetworkContext × List SentMsg × Bool :=
  if c.server_socket = none then (c, [], false)
  else
    match c.players.find? (fun q => q.player_id == pid) with
    | none => (c, [], false)
    | some q =>
      network_send_message c c.server_socket ⟨q.ip_address, q.port⟩ mtype payload ok

/-- `network_send_game_state`: `network_send_to_all(MSG_GAME_STATE_SYNC, ...)`. -/
def network_send_game_state (c : NetworkContext) (payload : List Nat)
    (oks : Nat → Bool) : NetworkContext × List SentMsg × Nat :=
  network_send_to_all c MSG_GAME_STATE_SYNC payload oks

/-- `network_send_turn_data`: `network_send_to_all(MSG_TURN_DATA, ...)`. -/
def network_send_turn_data (c : NetworkContext) (payload : List Nat)
    (oks : Nat → Bool) : NetworkContext × List SentMsg × Nat :=
  network_send_to_all c MSG_TURN_DATA payload oks

/-- `network_send_chat` on a non-NULL message: `network_send_to_all(MSG_CHAT,
message, strlen(message)+1)` (the bytes before the first NUL, plus the NUL). -/
def network_send_chat (c : NetworkContext) (msg : List Nat) (oks : Nat → Bool) :
    NetworkContext × List SentMsg × Nat :=
  network_send_to_all c MSG_CHAT (msg.takeWhile (fun b => b ≠ 0) ++ [0]) oks

/-- The local-state reset at the end of `network_disconnect`: both sockets
closed, roster cleared, role and state reset (statistics, sequence counter
and discovery registry are kept). -/
def resetCtx (c : NetworkContext) : NetworkContext :=
  { c with server_socket := none, broadcast_socket := none,
           state := .disconnected, players := [], is_host := false }

/-- The best-effort notification phase of `network_disconnect`: only a
`Connected` or `Hosting` session sends `MSG_PLAYER_DISCONNECT` to its roster. -/
def disconnectSends (c : NetworkContext) (oks : Nat → Bool) :
    NetworkContext × List SentMsg × Nat :=
  if c.state = .connected ∨ c.state = .hosting then
    network_send_to_all c MSG_PLAYER_DISCONNECT [] oks
  else (c, [], 0)

/-- `network_disconnect`: a no-op when already `Disconnected`; otherwise,
when `Connected` or `Hosting`, first best-effort-notifies every roster entry
with `MSG_PLAYER_DISCONNECT`, then closes both sockets and resets the local
session state. -/
def network_disconnect (c : NetworkContext) (oks : Nat → Bool) :
    NetworkContext × List SentMsg :=
  if c.state = .disconnected then (c, [])
  else (resetCtx (disconnectSends c oks).1, (disconnectSends c oks).2.1)

/-- The broadcast destination `INADDR_BROADCAST : NETWORK_BROADCAST_PORT`. -/
def broadcastAddr : Addr := ⟨4294967295, NETWORK_BROADCAST_PORT⟩

/-- `network_broadcast_discovery`: fails if the discovery socket is invalid,
else sends an empty `MSG_DISCOVERY_REQUEST` to the broadcast address. -/
def network_broadcast_discovery (c : NetworkContext) (ok : Bool) :
    NetworkContext × List SentMsg × Bool :=
  match c.broadcast_socket with
  | none => (c, [], false)
  | some _ =>
    network_send_message c c.broadcast_socket broadcastAddr
      MSG_DISCOVERY_REQUEST [] ok

/-- The context right after `network_start_discovery` has created the
discovery socket: registry cleared and last-broadcast time stamped. -/
def discoveryCtx (c : NetworkContext) (s ts : Nat) : NetworkContext :=
  { c with broadcast_socket := some s, discovered_games := [],
           last_discovery_time := ts }

/-- `network_start_discovery`: create the discovery socket (external result
`sock`), clear the registry, stamp the last-broadcast time and send the first
discovery request. -/
def network_start_discovery (c : NetworkContext) (sock : Option Nat)
    (ok : Bool) (ts : Nat) : NetworkContext × List SentMsg × Bool :=
  match sock with
  | none => (c, [], false)
  | some s => network_broadcast_discovery (discoveryCtx c s ts) ok

/-- `network_stop_discovery`: close the discovery socket. -/
def network_stop_discovery (c : NetworkContext) : NetworkContext :=
  { c with broadcast_socket := none }

/-- One socket poll of `network_update`: if the socket is valid, receive once
and dispatch a validated message. -/
def updateRecvStep (c : NetworkContext) (sock : Option Nat) (cbs : CallbackSet)
    (r : RecvIn) (src : Addr) (ok : Bool) (ts localIp : Nat) :
    NetworkContext × List SentMsg × List CbEvent :=
  match sock with
  | none => (c, [], [])
  | some _ =>
    match (network_receive_message c r).2 with
    | .ok t p =>
      network_handle_message (network_receive_message c r).1 cbs src t p ts
        localIp ok
    | _ => ((network_receive_message c r).1, [], [])

/-- The periodic re-broadcast step at the end of `network_update`: while the
discovery socket exists, the session is not the host and more than
`NETWORK_DISCOVERY_INTERVAL` ms (in 32-bit wraparound arithmetic) have
elapsed since the last broadcast, send a discovery request and re-stamp the
last-broadcast time. -/
def updateBroadcastStep (c : NetworkContext) (okD : Bool) (ts : Nat) :
    NetworkContext × List SentMsg :=
  if c.broadcast_socket.isSome && !c.is_host &&
      decide (u32sub ts c.last_discovery_time > NETWORK_DISCOVERY_INTERVAL) then
    ({ (network_broadcast_discovery c okD).1 with
       last_discovery_time := ts % 4294967296 },
     (network_broadcast_discovery c okD).2.1)
  else (c, [])

/-- The state of `network_update` after the server-socket poll. -/
def updStep1 (c : NetworkContext) (cbs : CallbackSet) (rs : RecvIn)
    (srcS : Addr) (okS : Bool) (localIp ts : Nat) :
    NetworkContext × List SentMsg × List CbEvent :=
  updateRecvStep c c.server_socket cbs rs srcS okS ts localIp

/-- The state of `network_update` after both socket polls. -/
def updStep2 (c : NetworkContext) (cbs : CallbackSet) (rs rb : RecvIn)
    (srcS srcB : Addr) (okS okB : Bool) (localIp ts : Nat) :
    NetworkContext × List SentMsg × List CbEvent :=
  updateRecvStep (updStep1 c cbs rs srcS okS localIp ts).1
    (updStep1 c cbs rs srcS okS localIp ts).1.broadcast_socket cbs rb srcB okB
    ts localIp

/-- `network_update`, the per-tick entry point: a no-op while `Disconnected`;
otherwise perform one receive on each valid socket (dispatching a validated
message), then re-broadcast discovery when due.  External inputs: the two
`recvfrom` outcomes with their sender addresses, the `sendto` outcomes for
the up-to-three sends, the local IP, and the tick's timestamp. -/
def network_update (c : NetworkContext) (cbs : CallbackSet) (rs rb : RecvIn)
    (srcS srcB : Addr) (okS okB okD : Bool) (localIp ts : Nat) :
    NetworkContext × List SentMsg × List CbEvent :=
  if c.state = .disconnected then (c, [], [])
  else
    ((updateBroadcastStep
        (updStep2 c cbs rs rb srcS srcB okS okB localIp ts).1 okD ts).1,
     (updStep1 c cbs rs srcS okS localIp ts).2.1 ++
       (updStep2 c cbs rs rb srcS srcB okS okB localIp ts).2.1 ++
       (updateBroadcastStep
         (updStep2 c cbs rs rb srcS srcB okS okB localIp ts).1 okD ts).2,
     (updStep1 c cbs rs srcS okS localIp ts).2.2 ++
       (updStep2 c cbs rs rb srcS srcB okS okB localIp ts).2.2)

/-! ## Reachable session states -/

/-- The contexts reachable from `network_init` by any sequence of public API
calls (with arbitrary external inputs: socket results, datagrams, timestamps,
send outcomes, callback sets). -/
inductive Reachable : NetworkContext → Prop where
  | init (ts : Nat) : Reachable (initCtx ts)
  | host (c : NetworkContext) (gname : Option (List Nat)) (port : Nat)
      (s1 : Option Nat) (b1 : Bool) (s2 : Option Nat) (b2 : Bool) :
      Reachable c → Reachable (network_host_game c gname port s1 b1 s2 b2).1
  | join (c : NetworkContext) (resolved : Option Addr)
      (pname : Option (List Nat)) (sock : Option Nat) (ok : Bool) :
      Reachable c → Reachable (network_join_game c resolved pname sock ok).1
  | disconnect (c : NetworkContext) (oks : Nat → Bool) :
      Reachable c → Reachable (network_disconnect c oks).1
  | startDiscovery (c : NetworkContext) (sock : Option Nat) (ok : Bool) (ts : Nat) :
      Reachable c → Reachable (network_start_discovery c sock ok ts).1
  | stopDiscovery (c : NetworkContext) :
      Reachable c → Reachable (network_stop_discovery c)
  | broadcastDiscovery (c : NetworkContext) (ok : Bool) :
      Reachable c → Reachable (network_broadcast_discovery c ok).1
  | update (c : NetworkContext) (cbs : CallbackSet) (rs rb : RecvIn)
      (srcS srcB : Addr) (okS okB okD : Bool) (localIp ts : Nat) :
      Reachable c →
      Reachable (network_update c cbs rs rb srcS srcB okS okB okD localIp ts).1
  | sendToAll (c : NetworkContext) (mtype : Nat) (payload : List Nat)
      (oks : Nat → Bool) :
      Reachable c → Reachable (network_send_to_all c mtype payload oks).1
  | sendToPlayer (c : NetworkContext) (pid mtype : Nat) (payload : List Nat)
      (ok : Bool) :
      Reachable c → Reachable (network_send_to_player c pid mtype payload ok).1
  | sendChat (c : NetworkContext) (msg : List Nat) (oks : Nat → Bool) :
      Reachable c → Reachable (network_send_chat c msg oks).1
  | sendGameState (c : NetworkContext) (payload : List Nat) (oks : Nat → Bool) :
      Reachable c → Reachable (network_send_game_state c payload oks).1
  | sendTurnData (c : NetworkContext) (payload : List Nat) (oks : Nat → Bool) :
      Reachable c → Reachable (network_send_turn_data c payload oks).1

/-! ## The session invariant -/

/-- Invariant of reachable session states: the roster never exceeds 8
entries; a disconnected session holds no server socket and an empty roster; a
connecting or connected session is a client with an empty roster; the host
role coincides with the `Hosting` state; and a hosting session has a valid
server socket. -/
def Inv (c : NetworkContext) : Prop :=
  c.players.length ≤ NETWORK_MAX_PLAYERS ∧
  (c.state = .disconnected → c.server_socket = none ∧ c.players = []) ∧
  (c.state = .connecting ∨ c.state = .connected →
    c.is_host = false ∧ c.players = []) ∧
  (c.is_host = true ↔ c.state = .hosting) ∧
  (c.state = .hosting → c.server_socket.isSome)

/-- The fields of the context that none of the send/receive statistics
bookkeeping touches. -/
def CoreEq (c d : NetworkContext) : Prop :=
  d.state = c.state ∧ d.server_socket = c.server_socket ∧
  d.broadcast_socket = c.broadcast_socket ∧ d.players = c.players ∧
  d.is_host = c.is_host ∧ d.last_discovery_time = c.last_discovery_time ∧
  d.discovered_games = c.discovered_games

/-- The fields of the context that `_network_handle_message` never writes,
whatever the message: the discovery socket, the role flag and the
last-discovery-broadcast time. -/
def FrameEq (c d : NetworkContext) : Prop :=
  d.broadcast_socket = c.broadcast_socket ∧ d.is_host = c.is_host ∧
  d.last_discovery_time = c.last_discovery_time

/-! ## Concrete session states used as test vehicles -/

/-- A `sendto` oracle in which every send succeeds. -/
def okAll : Nat → Bool := fun _ => true

/-- No callbacks registered. -/
def cbsNone : CallbackSet := ⟨false, false, false, false, false⟩

/-- All callbacks registered. -/
def cbsAll : CallbackSet := ⟨true, true, true, true, true⟩

/-- A sample remote peer address. -/
def demoAddr : Addr := ⟨3232235521, 40000⟩

/-- A sample host address (127.0.0.1:7777). -/
def demoHost : Addr := ⟨2130706433, 7777⟩

/-- A sample roster entry. -/
def demoPlayer (i : Nat) : NetworkPlayer :=
  { player_id := 256 + i, name := [65], hostname := 10, ip_address := 10 + i,
    port := 40000, last_ping := 0, connected := true }

/-- A hosting session (as `network_host_game` leaves it on success). -/
def hostBaseCtx : NetworkContext :=
  { initCtx 0 with state := .hosting, is_host := true, server_socket := some 3,
                   broadcast_socket := some 4 }

/-- A hosting session whose roster is at capacity (8 peers). -/
def hostFullCtx : NetworkContext :=
  { hostBaseCtx with players := (List.range 8).map demoPlayer }

/-- A hosting session whose static id counter has reached a multiple of 256. -/
def hostCtr256 : NetworkContext := { hostBaseCtx with id_counter := 256 }

/-- A sample advertised session. -/
def demoInfo (gid cur : Nat) : GameInfo :=
  { game_name := [71], host_name := [72], host_ip := 9, host_port := 7777,
    current_players := cur, max_players := 8, game_id := gid, last_seen := 0 }

/-- A discovery registry at capacity (16 entries, game ids 1..16). -/
def fullRegistry : List GameInfo := (List.range 16).map (fun i => demoInfo (i+1) 1)

/-- A session whose discovery registry is full. -/
def regFullCtx : NetworkContext :=
  { initCtx 0 with discovered_games := fullRegistry }

/-- A hosting session already holding one peer at `demoAddr`. -/
def hostDupCtx : NetworkContext :=
  { hostBaseCtx with players :=
      [{ player_id := 7, name := [66], hostname := 3232235521,
         ip_address := 3232235521, port := 40000, last_ping := 0,
         connected := true }] }

/-- A discovery response advertising the session with game id 1 but a
different player count than the registry holds. -/
def dupRespPayload : List Nat := encodeGameInfo (demoInfo 1 5)

/-- A later discovery response for the same session (game id 1) with yet
another player count. -/
def dupRespPayload2 : List Nat := encodeGameInfo (demoInfo 1 6)

/-- Trace: a hosting session (result of a successful `network_host_game`). -/
def hStep0 : NetworkContext :=
  (network_host_game (initCtx 0) (some [65]) 7777 (some 3) true (some 4) true).1

/-- A framed join request carrying the name "N". -/
def joinReqFrame : List Nat := sendMessageFrame MSG_JOIN_REQUEST 1 0 [78, 0]

/-- Trace: the hosting session after the tick in which one join request
arrives from `demoAddr`: a host with a roster of one. -/
def hStep1 : NetworkContext :=
  (network_update hStep0 cbsNone (.dgram joinReqFrame) .wouldBlock demoAddr
    demoAddr true true true 0 0).1

/-- Trace: fresh context. -/
def cStep0 : NetworkContext := initCtx 0

/-- Trace: after `network_start_discovery` (discovery socket 7 created). -/
def cStep1 : NetworkContext := (network_start_discovery cStep0 (some 7) true 0).1

/-- Trace: after a successful `network_join_game` towards 127.0.0.1:7777. -/
def cStep2 : NetworkContext :=
  (network_join_game cStep1 (some demoHost) none (some 9) true).1

/-- The join response frame the host answers with (assigned id 42). -/
def joinRespFrame : List Nat := sendMessageFrame MSG_JOIN_RESPONSE 1 0 (u32le 42)

/-- Trace: after the tick in which the join response arrives: a connected
client whose discovery socket is still open. -/
def clientConnectedCtx : NetworkContext :=
  (network_update cStep2 cbsNone (.dgram joinRespFrame) .wouldBlock demoHost
    demoAddr true true true 0 0).1

theorem coreEq_refl (c : NetworkContext) : CoreEq c c := by
  simp [CoreEq]

theorem coreEq_trans {a b c : NetworkContext} (h1 : CoreEq a b) (h2 : CoreEq b c) :
    CoreEq a c := by
  obtain ⟨x1, x2, x3, x4, x5, x6, x7⟩ := h1
  obtain ⟨y1, y2, y3, y4, y5, y6, y7⟩ := h2
  exact ⟨y1.trans x1, y2.trans x2, y3.trans x3, y4.trans x4, y5.trans x5,
    y6.trans x6, y7.trans x7⟩

theorem inv_of_coreEq {c d : NetworkContext} (h : CoreEq c d) (hi : Inv c) :
    Inv d := by
  obtain ⟨x1, x2, x3, x4, x5, x6, x7⟩ := h
  obtain ⟨i1, i2, i3, i4, i5⟩ := hi
  refine ⟨?_, ?_, ?_, ?_, ?_⟩ <;> simp only [x1, x2, x4, x5] <;> assumption

theorem coreEq_send_message (c : NetworkContext) (sock : Option Nat)
    (dest : Addr) (mtype : Nat) (payload : List Nat) (ok : Bool) :
    CoreEq c (network_send_message c sock dest mtype payload ok).1 := by
  unfold network_send_message
  split <;> [skip; split] <;> simp [CoreEq]

theorem coreEq_receive_message (c : NetworkContext) (r : RecvIn) :
    CoreEq c (network_receive_message c r).1 := by
  unfold network_receive_message
  rcases r with _ | _ | buf
  · simp [CoreEq]
  · simp [CoreEq]
  · cases hd : decodeCore buf <;> simp [CoreEq, hd]

theorem coreEq_sendToAllLoop (ps : List NetworkPlayer) (c : NetworkContext)
    (i : Nat) (mtype : Nat) (payload : List Nat) (oks : Nat → Bool) :
    CoreEq c (sendToAllLoop c ps i mtype payload oks).1 := by
  induction ps generalizing c i with
  | nil => simpa [sendToAllLoop] using coreEq_refl c
  | cons q rest ih =>
    unfold sendToAllLoop
    split
    · exact coreEq_trans
        (coreEq_send_message c c.server_socket ⟨q.ip_address, q.port⟩ mtype payload (oks i))
        (ih _ (i+1))
    · exact ih c (i+1)

theorem coreEq_send_to_all (c : NetworkContext) (mtype : Nat)
    (payload : List Nat) (oks : Nat → Bool) :
    CoreEq c (network_send_to_all c mtype payload oks).1 := by
  unfold network_send_to_all
  split
  · exact coreEq_refl c
  · exact coreEq_sendToAllLoop c.players c 0 mtype payload oks

theorem coreEq_send_to_player (c : NetworkContext) (pid mtype : Nat)
    (payload : List Nat) (ok : Bool) :
    CoreEq c (network_send_to_player c pid mtype payload ok).1 := by
  unfold network_send_to_player
  split
  · exact coreEq_refl c
  · split
    · exact coreEq_refl c
    · exact coreEq_send_message _ _ _ _ _ _

theorem rosterRemove_nil (cb : Bool) (ip port : Nat) :
    rosterRemove cb [] ip port = ([], []) := rfl

theorem rosterRemove_length_le (cb : Bool) (ps : List NetworkPlayer)
    (ip port : Nat) : (rosterRemove cb ps ip port).1.length ≤ ps.length := by
  induction ps with
  | nil => simp [rosterRemove]
  | cons p rest ih =>
    unfold rosterRemove
    split
    · simp
    · simpa using Nat.succ_le_succ ih

theorem inv_handleDiscoveryRequest (c : NetworkContext) (src : Addr)
    (localIp : Nat) (sOk : Bool) (hi : Inv c) :
    Inv (handleDiscoveryRequest c src localIp sOk).1 :=
  inv_of_coreEq (coreEq_send_message _ _ _ _ _ _) hi

theorem inv_joinReqCtx (c : NetworkContext) (src : Addr) (data : List Nat)
    (ts : Nat) (hi : Inv c) (hh : c.is_host = true)
    (hlen : c.players.length < NETWORK_MAX_PLAYERS) :
    Inv (joinReqCtx c src data ts) := by
  obtain ⟨i1, i2, i3, i4, i5⟩ := hi
  have hh2 : c.state = .hosting := i4.mp hh
  have hl8 : c.players.length < 8 := hlen
  refine ⟨?_, ?_, ?_, ?_, ?_⟩ <;> simp [joinReqCtx, hh2]
  · omega
  · exact hh
  · exact i5 hh2

theorem inv_handleJoinRequest (c : NetworkContext) (cbs : CallbackSet)
    (src : Addr) (data : List Nat) (ts : Nat) (sOk : Bool) (hi : Inv c)
    (hh : c.is_host = true) (hlen : c.players.length < NETWORK_MAX_PLAYERS) :
    Inv (handleJoinRequest c cbs src data ts sOk).1 :=
  inv_of_coreEq (coreEq_send_message _ _ _ _ _ _)
    (inv_joinReqCtx c src data ts hi hh hlen)

theorem inv_handle_message (c : NetworkContext) (cbs : CallbackSet) (src : Addr)
    (mtype : Nat) (data : List Nat) (ts localIp : Nat) (sOk : Bool)
    (hi : Inv c) :
    Inv (network_handle_message c cbs src mtype data ts localIp sOk).1 := by
  unfold network_handle_message
  by_cases h1 : mtype = MSG_DISCOVERY_REQUEST
  · rw [if_pos h1]
    by_cases h2 : c.is_host = true ∧ c.state = .hosting
    · rw [if_pos h2]; exact inv_handleDiscoveryRequest c src localIp sOk hi
    · rw [if_neg h2]; exact hi
  rw [if_neg h1]
  by_cases h3 : mtype = MSG_DISCOVERY_RESPONSE
  · rw [if_pos h3]
    by_cases h4 : data.length = GAME_INFO_SIZE ∧ c.discovered_games.length < 16
    · rw [if_pos h4]; exact hi
    · rw [if_neg h4]; exact hi
  rw [if_neg h3]
  by_cases h5 : mtype = MSG_JOIN_REQUEST
  · rw [if_pos h5]
    by_cases h6 : c.is_host = true ∧ c.players.length < NETWORK_MAX_PLAYERS
    · rw [if_pos h6]; exact inv_handleJoinRequest c cbs src data ts sOk hi h6.1 h6.2
    · rw [if_neg h6]; exact hi
  rw [if_neg h5]
  by_cases h7 : mtype = MSG_JOIN_RESPONSE
  · rw [if_pos h7]
    by_cases h8 : c.state = .connecting ∧ data.length = 4
    · rw [if_pos h8]
      obtain ⟨i1, i2, i3, i4, i5⟩ := hi
      obtain ⟨hhost, hpl⟩ := i3 (Or.inl h8.1)
      refine ⟨?_, ?_, ?_, ?_, ?_⟩ <;> simp [hhost, hpl]
    · rw [if_neg h8]; exact hi
  rw [if_neg h7]
  by_cases h9 : mtype = MSG_GAME_DATA
  · rw [if_pos h9]
    by_cases h10 : cbs.on_game_data = true
    · rw [if_pos h10]; exact hi
    · rw [if_neg h10]; exact hi
  rw [if_neg h9]
  by_cases h11 : mtype = MSG_CHAT
  · rw [if_pos h11]
    by_cases h12 : cbs.on_chat = true ∧ data ≠ []
    · rw [if_pos h12]; exact hi
    · rw [if_neg h12]; exact hi
  rw [if_neg h11]
  by_cases h13 : mtype = MSG_PLAYER_DISCONNECT
  · rw [if_pos h13]
    obtain ⟨i1, i2, i3, i4, i5⟩ := hi
    refine ⟨?_, ?_, ?_, ?_, ?_⟩ <;> simp
    · exact le_trans (rosterRemove_length_le _ _ _ _) i1
    · intro hd
      obtain ⟨hs, hp⟩ := i2 hd
      rw [hp, rosterRemove_nil]
      exact ⟨hs, rfl⟩
    · intro hcc
      obtain ⟨hhost, hpl⟩ := i3 hcc
      rw [hpl, rosterRemove_nil]
      exact ⟨hhost, rfl⟩
    · exact i4
    · exact i5
  rw [if_neg h13]
  exact hi

theorem inv_receive_message (c : NetworkContext) (r : RecvIn) :
    Inv c → Inv (network_receive_message c r).1 :=
  fun hi => inv_of_coreEq (coreEq_receive_message c r) hi

theorem inv_initCtx (ts : Nat) : Inv (initCtx ts) := by
  simp [Inv, initCtx]

theorem not_host_of_not_hosting {c : NetworkContext}
    (i4 : c.is_host = true ↔ c.state = .hosting)
    (h : c.state ≠ .hosting) : c.is_host = false := by
  cases hih : c.is_host
  · rfl
  · exact absurd (i4.mp hih) h

theorem inv_host_game (c : NetworkContext) (gname : Option (List Nat))
    (port : Nat) (s1 : Option Nat) (b1 : Bool) (s2 : Option Nat) (b2 : Bool)
    (hi : Inv c) : Inv (network_host_game c gname port s1 b1 s2 b2).1 := by
  obtain ⟨i1, i2, i3, i4, i5⟩ := hi
  unfold network_host_game
  by_cases hd : c.state = .disconnected
  · obtain ⟨hs, hp⟩ := i2 hd
    have i4' : c.is_host = false :=
      not_host_of_not_hosting i4 (by rw [hd]; intro hcon; cases hcon)
    rw [if_pos hd]
    rcases s1 with _ | sv <;> rcases s2 with _ | bc <;> rcases b1 <;> rcases b2 <;>
      simp [Inv, NETWORK_MAX_PLAYERS, hd, hp, hs, i4']
  · rw [if_neg hd]; exact ⟨i1, i2, i3, i4, i5⟩

theorem inv_join_game (c : NetworkContext) (resolved : Option Addr)
    (pname : Option (List Nat)) (sock : Option Nat) (ok : Bool)
    (hi : Inv c) : Inv (network_join_game c resolved pname sock ok).1 := by
  obtain ⟨i1, i2, i3, i4, i5⟩ := hi
  unfold network_join_game
  by_cases hd : c.state = .disconnected
  · obtain ⟨hs, hp⟩ := i2 hd
    have i4' : c.is_host = false :=
      not_host_of_not_hosting i4 (by rw [hd]; intro hcon; cases hcon)
    rw [if_pos hd]
    rcases sock with _ | s
    · simp [Inv, hd, hp, i4']
    · rcases resolved with _ | a
      · simp [Inv, hd, hp, i4']
      · dsimp only
        have hco : CoreEq { c with server_socket := some s }
            (joinSend c a pname s ok).1 := coreEq_send_message _ _ _ _ _ _
        obtain ⟨x1, x2, x3, x4, x5, x6, x7⟩ := hco
        simp only [] at x1 x4 x5
        split_ifs with hsent
        · refine ⟨?_, ?_, ?_, ?_, ?_⟩ <;>
            simp [NETWORK_MAX_PLAYERS, x1, x4, x5, hd, hp, i4']
        · refine ⟨?_, ?_, ?_, ?_, ?_⟩ <;>
            simp [NETWORK_MAX_PLAYERS, x1, x4, x5, hd, hp, i4']
  · rw [if_neg hd]; exact ⟨i1, i2, i3, i4, i5⟩

theorem inv_resetCtx (c : NetworkContext) : Inv (resetCtx c) := by
  simp [Inv, resetCtx]

theorem inv_disconnect (c : NetworkContext) (oks : Nat → Bool)
    (hi : Inv c) : Inv (network_disconnect c oks).1 := by
  unfold network_disconnect
  split_ifs with hd
  · exact hi
  · exact inv_resetCtx _

theorem inv_broadcast_discovery (c : NetworkContext) (ok : Bool)
    (hi : Inv c) : Inv (network_broadcast_discovery c ok).1 := by
  unfold network_broadcast_discovery
  rcases hb : c.broadcast_socket with _ | s
  · exact hi
  · exact inv_of_coreEq (coreEq_send_message _ _ _ _ _ _) hi

theorem inv_discoveryCtx (c : NetworkContext) (s ts : Nat) (hi : Inv c) :
    Inv (discoveryCtx c s ts) := by
  obtain ⟨i1, i2, i3, i4, i5⟩ := hi
  exact ⟨i1, i2, i3, i4, i5⟩

theorem inv_start_discovery (c : NetworkContext) (sock : Option Nat)
    (ok : Bool) (ts : Nat) (hi : Inv c) :
    Inv (network_start_discovery c sock ok ts).1 := by
  unfold network_start_discovery
  rcases sock with _ | s
  · exact hi
  · exact inv_broadcast_discovery _ ok (inv_discoveryCtx c s ts hi)

theorem inv_stop_discovery (c : NetworkContext) (hi : Inv c) :
    Inv (network_stop_discovery c) := by
  obtain ⟨i1, i2, i3, i4, i5⟩ := hi
  exact ⟨i1, i2, i3, i4, i5⟩

theorem inv_updateRecvStep (c : NetworkContext) (sock : Option Nat)
    (cbs : CallbackSet) (r : RecvIn) (src : Addr) (ok : Bool)
    (ts localIp : Nat) (hi : Inv c) :
    Inv (updateRecvStep c sock cbs r src ok ts localIp).1 := by
  unfold updateRecvStep
  rcases sock with _ | s
  · exact hi
  · rcases hr : (network_receive_message c r).2 with _ | _ | ⟨t, p⟩
    · exact inv_receive_message c r hi
    · exact inv_receive_message c r hi
    · exact inv_handle_message _ cbs src t p ts localIp ok
        (inv_receive_message c r hi)

theorem inv_updateBroadcastStep (c : NetworkContext) (okD : Bool) (ts : Nat)
    (hi : Inv c) : Inv (updateBroadcastStep c okD ts).1 := by
  unfold updateBroadcastStep
  split_ifs with h
  · obtain ⟨j1, j2, j3, j4, j5⟩ := inv_broadcast_discovery c okD hi
    exact ⟨j1, j2, j3, j4, j5⟩
  · exact hi

theorem inv_update (c : NetworkContext) (cbs : CallbackSet) (rs rb : RecvIn)
    (srcS srcB : Addr) (okS okB okD : Bool) (localIp ts : Nat) (hi : Inv c) :
    Inv (network_update c cbs rs rb srcS srcB okS okB okD localIp ts).1 := by
  unfold network_update
  split_ifs with hd
  · exact hi
  · exact inv_updateBroadcastStep _ okD ts
      (inv_updateRecvStep _ _ cbs rb srcB okB ts localIp
        (inv_updateRecvStep c c.server_socket cbs rs srcS okS ts localIp hi))

theorem inv_send_to_all (c : NetworkContext) (mtype : Nat) (payload : List Nat)
    (oks : Nat → Bool) (hi : Inv c) :
    Inv (network_send_to_all c mtype payload oks).1 :=
  inv_of_coreEq (coreEq_send_to_all c mtype payload oks) hi

/-- Every reachable session state satisfies the invariant. -/
theorem inv_reachable (c : NetworkContext) (h : Reachable c) : Inv c := by
  induction h with
  | init ts => exact inv_initCtx ts
  | host c gname port s1 b1 s2 b2 _ ih => exact inv_host_game c gname port s1 b1 s2 b2 ih
  | join c resolved pname sock ok _ ih => exact inv_join_game c resolved pname sock ok ih
  | disconnect c oks _ ih => exact inv_disconnect c oks ih
  | startDiscovery c sock ok ts _ ih => exact inv_start_discovery c sock ok ts ih
  | stopDiscovery c _ ih => exact inv_stop_discovery c ih
  | broadcastDiscovery c ok _ ih => exact inv_broadcast_discovery c ok ih
  | update c cbs rs rb srcS srcB okS okB okD localIp ts _ ih =>
      exact inv_update c cbs rs rb srcS srcB okS okB okD localIp ts ih
  | sendToAll c mtype payload oks _ ih => exact inv_send_to_all c mtype payload oks ih
  | sendToPlayer c pid mtype payload ok _ ih =>
      exact inv_of_coreEq (coreEq_send_to_player c pid mtype payload ok) ih
  | sendChat c msg oks _ ih => exact inv_send_to_all c _ _ oks ih
  | sendGameState c payload oks _ ih => exact inv_send_to_all c _ _ oks ih
  | sendTurnData c payload oks _ ih => exact inv_send_to_all c _ _ oks ih

/-! ## Codec lemmas -/

theorem readU32be_at0 (a b c d : Nat) (l : List Nat) :
    readU32be (a :: b :: c :: d :: l) 0 = 16777216 * a + 65536 * b + 256 * c + d := rfl

theorem readU16be_at4 (x0 x1 x2 x3 a b : Nat) (l : List Nat) :
    readU16be (x0 :: x1 :: x2 :: x3 :: a :: b :: l) 4 = 256 * a + b := rfl

theorem readU16be_at6 (x0 x1 x2 x3 x4 x5 a b : Nat) (l : List Nat) :
    readU16be (x0 :: x1 :: x2 :: x3 :: x4 :: x5 :: a :: b :: l) 6 = 256 * a + b := rfl

theorem readU32be_at8 (x0 x1 x2 x3 x4 x5 x6 x7 a b c d : Nat) (l : List Nat) :
    readU32be (x0 :: x1 :: x2 :: x3 :: x4 :: x5 :: x6 :: x7 :: a :: b :: c :: d :: l) 8 =
      16777216 * a + 65536 * b + 256 * c + d := rfl

theorem sendMessageFrame_eq (mtype seq ts : Nat) (payload : List Nat) :
    sendMessageFrame mtype seq ts payload =
      (NETWORK_MAGIC / 16777216 % 256) :: (NETWORK_MAGIC / 65536 % 256) ::
      (NETWORK_MAGIC / 256 % 256) :: (NETWORK_MAGIC % 256) ::
      (NETWORK_PROTOCOL_VERSION / 256 % 256) :: (NETWORK_PROTOCOL_VERSION % 256) ::
      (mtype / 256 % 256) :: (mtype % 256) ::
      (payload.length / 16777216 % 256) :: (payload.length / 65536 % 256) ::
      (payload.length / 256 % 256) :: (payload.length % 256) ::
      (seq / 16777216 % 256) :: (seq / 65536 % 256) :: (seq / 256 % 256) :: (seq % 256) ::
      (ts / 16777216 % 256) :: (ts / 65536 % 256) :: (ts / 256 % 256) :: (ts % 256) ::
      payload := by
  simp [sendMessageFrame, u32be, u16be]

theorem sendMessageFrame_length (mtype seq ts : Nat) (payload : List Nat) :
    (sendMessageFrame mtype seq ts payload).length =
      HEADER_SIZE + payload.length := by
  rw [sendMessageFrame_eq]
  simp [HEADER_SIZE]
  omega

theorem receive_dgram_ok (c : NetworkContext) (buf : List Nat) (t : Nat)
    (p : List Nat) (h : decodeCore buf = .ok t p) :
    network_receive_message c (.dgram buf) =
      ({ c with bytes_received := c.bytes_received + buf.length,
                messages_received := c.messages_received + 1 }, .ok t p) := by
  simp only [network_receive_message]
  rw [h]

theorem receive_dgram_invalid (c : NetworkContext) (buf : List Nat)
    (h : decodeCore buf = .invalid) :
    network_receive_message c (.dgram buf) =
      ({ c with errors := c.errors + 1 }, .invalid) := by
  simp only [network_receive_message]
  rw [h]

/-! ## Claim theorems: codec -/

/-- C1: Codec round-trip.  For every message type (a 16-bit value, which all
`message_type_t` values are) and every byte payload of length at most
`NETWORK_MAX_MESSAGE_SIZE` (1024), decoding the framed buffer built by
`_network_send_message` (`sendMessageFrame`) with `_network_receive_message`
succeeds with exactly the same type and payload bytes, updating only the
receive statistics. -/
theorem C1_codec_round_trip (c : NetworkContext) (mtype seq ts : Nat)
    (payload : List Nat) (ht : mtype < 65536)
    (hp : payload.length ≤ NETWORK_MAX_MESSAGE_SIZE)
    (hb : ∀ b ∈ payload, b < 256) :
    decodeCore (sendMessageFrame mtype seq ts payload) = .ok mtype payload ∧
    network_receive_message c (.dgram (sendMessageFrame mtype seq ts payload)) =
      ({ c with
         bytes_received := c.bytes_received + (HEADER_SIZE + payload.length),
         messages_received := c.messages_received + 1 }, .ok mtype payload) := by
  have hp' : payload.length ≤ 1024 := hp
  have hdec : decodeCore (sendMessageFrame mtype seq ts payload) =
      .ok mtype payload := by
    rw [sendMessageFrame_eq]
    unfold decodeCore
    rw [readU32be_at0, readU16be_at4, readU16be_at6, readU32be_at8]
    rw [if_neg (by simp [HEADER_SIZE]), if_neg (by decide), if_neg (by decide),
      if_neg (by
        simp only [List.length_cons, List.length_append,
          NETWORK_MAX_MESSAGE_SIZE, HEADER_SIZE]
        push_neg
        omega)]
    have h1 : 256 * (mtype / 256 % 256) + mtype % 256 = mtype := by omega
    rw [h1]
    rfl
  refine ⟨hdec, ?_⟩
  rw [receive_dgram_ok c _ _ _ hdec, sendMessageFrame_length]

/-- Witness for C1 at a concrete chat message. -/
theorem C1_codec_round_trip_witness :
    (MSG_CHAT < 65536 ∧ ([72, 105] : List Nat).length ≤ NETWORK_MAX_MESSAGE_SIZE ∧
      ∀ b ∈ ([72, 105] : List Nat), b < 256) ∧
    decodeCore (sendMessageFrame MSG_CHAT 5 77 [72, 105]) = .ok MSG_CHAT [72, 105] :=
  ⟨⟨by decide, by decide, by decide⟩,
   (C1_codec_round_trip (initCtx 0) MSG_CHAT 5 77 [72, 105] (by decide)
      (by decide) (by decide)).1⟩

/-- C2: Decode rejection.  Every received datagram that is shorter than the
header, or has the wrong magic or version, or whose declared payload size
disagrees with the received length or exceeds the maximum, makes
`_network_receive_message` return the invalid result (-1, a value distinct
from the would-block result 0 and carrying no payload, so nothing is written
to the caller's buffers) while incrementing exactly the error counter. -/
theorem C2_decode_rejection (c : NetworkContext) (buf : List Nat)
    (hne : 1 ≤ buf.length)
    (hbad : buf.length < HEADER_SIZE ∨ readU32be buf 0 ≠ NETWORK_MAGIC ∨
      readU16be buf 4 ≠ NETWORK_PROTOCOL_VERSION ∨
      readU32be buf 8 ≠ buf.length - HEADER_SIZE ∨
      readU32be buf 8 > NETWORK_MAX_MESSAGE_SIZE) :
    network_receive_message c (.dgram buf) =
      ({ c with errors := c.errors + 1 }, .invalid) ∧
    RecvResult.invalid ≠ RecvResult.noData ∧
    ∀ t p, RecvResult.invalid ≠ RecvResult.ok t p := by
  have hdec : decodeCore buf = .invalid := by
    unfold decodeCore
    split_ifs with g1 g2 g3 g4
    · rfl
    · rfl
    · rfl
    · rfl
    · exfalso
      rcases hbad with h | h | h | h | h
      · exact g1 h
      · exact g2 h
      · exact g3 h
      · push_neg at g4
        have h2 := g4.2
        omega
      · push_neg at g4
        have h2 := g4.1
        omega
  exact ⟨receive_dgram_invalid c buf hdec, by decide,
    fun t p h => RecvResult.noConfusion h⟩

/-- Witness for C2 at a concrete short datagram. -/
theorem C2_decode_rejection_witness :
    1 ≤ ([1, 2, 3] : List Nat).length ∧
    ([1, 2, 3] : List Nat).length < HEADER_SIZE ∧
    network_receive_message (initCtx 0) (.dgram [1, 2, 3]) =
      ({ initCtx 0 with errors := (initCtx 0).errors + 1 }, .invalid) :=
  ⟨by decide, by decide,
   (C2_decode_rejection (initCtx 0) [1, 2, 3] (by decide)
      (Or.inl (by decide))).1⟩

/-! ## Dispatch branch lemmas -/

theorem handle_join_request_eq (c : NetworkContext) (cbs : CallbackSet)
    (src : Addr) (data : List Nat) (ts localIp : Nat) (sOk : Bool)
    (hh : c.is_host = true) (hlen : c.players.length < NETWORK_MAX_PLAYERS) :
    network_handle_message c cbs src MSG_JOIN_REQUEST data ts localIp sOk =
      handleJoinRequest c cbs src data ts sOk := by
  unfold network_handle_message
  rw [if_neg (by decide), if_neg (by decide), if_pos rfl, if_pos ⟨hh, hlen⟩]

theorem handle_join_request_rejected (c : NetworkContext) (cbs : CallbackSet)
    (src : Addr) (data : List Nat) (ts localIp : Nat) (sOk : Bool)
    (h : ¬(c.is_host = true ∧ c.players.length < NETWORK_MAX_PLAYERS)) :
    network_handle_message c cbs src MSG_JOIN_REQUEST data ts localIp sOk =
      (c, [], []) := by
  unfold network_handle_message
  rw [if_neg (by decide), if_neg (by decide), if_pos rfl, if_neg h]

theorem handle_discovery_response_eq (c : NetworkContext) (cbs : CallbackSet)
    (src : Addr) (data : List Nat) (ts localIp : Nat) (sOk : Bool)
    (h1 : data.length = GAME_INFO_SIZE) (h2 : c.discovered_games.length < 16) :
    network_handle_message c cbs src MSG_DISCOVERY_RESPONSE data ts localIp sOk =
      ({ c with discovered_games :=
          registryInsert c.discovered_games (refreshSeen (parseGameInfo data) ts) },
       [], []) := by
  unfold network_handle_message
  rw [if_neg (by decide), if_pos rfl, if_pos ⟨h1, h2⟩]

theorem handle_discovery_response_drop (c : NetworkContext) (cbs : CallbackSet)
    (src : Addr) (data : List Nat) (ts localIp : Nat) (sOk : Bool)
    (h : ¬(data.length = GAME_INFO_SIZE ∧ c.discovered_games.length < 16)) :
    network_handle_message c cbs src MSG_DISCOVERY_RESPONSE data ts localIp sOk =
      (c, [], []) := by
  unfold network_handle_message
  rw [if_neg (by decide), if_pos rfl, if_neg h]

theorem handle_join_response_eq (c : NetworkContext) (cbs : CallbackSet)
    (src : Addr) (data : List Nat) (ts localIp : Nat) (sOk : Bool)
    (h : c.state = .connecting ∧ data.length = 4) :
    network_handle_message c cbs src MSG_JOIN_RESPONSE data ts localIp sOk =
      ({ c with local_player_id := readU32le data 0, state := .connected },
       [], []) := by
  unfold network_handle_message
  rw [if_neg (by decide), if_neg (by decide), if_neg (by decide), if_pos rfl,
    if_pos h]

theorem handle_join_response_skip (c : NetworkContext) (cbs : CallbackSet)
    (src : Addr) (data : List Nat) (ts localIp : Nat) (sOk : Bool)
    (h : ¬(c.state = .connecting ∧ data.length = 4)) :
    network_handle_message c cbs src MSG_JOIN_RESPONSE data ts localIp sOk =
      (c, [], []) := by
  unfold network_handle_message
  rw [if_neg (by decide), if_neg (by decide), if_neg (by decide), if_pos rfl,
    if_neg h]

theorem handle_player_disconnect_eq (c : NetworkContext) (cbs : CallbackSet)
    (src : Addr) (data : List Nat) (ts localIp : Nat) (sOk : Bool) :
    network_handle_message c cbs src MSG_PLAYER_DISCONNECT data ts localIp sOk =
      ({ c with players :=
          (rosterRemove cbs.on_player_left c.players src.ip src.port).1 },
       [], (rosterRemove cbs.on_player_left c.players src.ip src.port).2) := by
  unfold network_handle_message
  rw [if_neg (by decide), if_neg (by decide), if_neg (by decide),
    if_neg (by decide), if_neg (by decide), if_neg (by decide), if_pos rfl]

theorem handleJoinRequest_ctx (c : NetworkContext) (cbs : CallbackSet)
    (src : Addr) (data : List Nat) (ts : Nat) (sOk : Bool) :
    (handleJoinRequest c cbs src data ts sOk).1 =
      (network_send_message (joinReqCtx c src data ts)
        (joinReqCtx c src data ts).server_socket src MSG_JOIN_RESPONSE
        (u32le (joinPid c ts)) sOk).1 := rfl

theorem handleJoinRequest_events (c : NetworkContext) (cbs : CallbackSet)
    (src : Addr) (data : List Nat) (ts : Nat) (sOk : Bool) :
    (handleJoinRequest c cbs src data ts sOk).2.2 =
      if cbs.on_player_joined then
        [.playerJoined (joinPid c ts) (joinName data c.players.length)]
      else [] := rfl

/-! ## Roster removal and registry structural lemmas -/

theorem rosterRemove_first_match (cb : Bool) (l1 : List NetworkPlayer)
    (q : NetworkPlayer) (l2 : List NetworkPlayer) (ip port : Nat)
    (hl1 : ∀ r ∈ l1, ¬(r.ip_address = ip ∧ r.port = port))
    (hq : q.ip_address = ip ∧ q.port = port) :
    rosterRemove cb (l1 ++ q :: l2) ip port =
      (l1 ++ l2, if cb then [.playerLeft q.player_id] else []) := by
  induction l1 with
  | nil =>
    simp only [List.nil_append]
    unfold rosterRemove
    rw [if_pos hq]
  | cons r rest ih =>
    have hr := hl1 r (by simp)
    simp only [List.cons_append]
    unfold rosterRemove
    rw [if_neg hr, ih (fun x hx => hl1 x (by simp [hx]))]

theorem rosterRemove_no_match (cb : Bool) (ps : List NetworkPlayer)
    (ip port : Nat) (h : ∀ r ∈ ps, ¬(r.ip_address = ip ∧ r.port = port)) :
    rosterRemove cb ps ip port = (ps, []) := by
  induction ps with
  | nil => rfl
  | cons p rest ih =>
    unfold rosterRemove
    rw [if_neg (h p (by simp)), ih (fun x hx => h x (by simp [hx]))]

theorem registryInsert_found (l1 : List GameInfo) (e : GameInfo)
    (l2 : List GameInfo) (g : GameInfo)
    (hl1 : ∀ q ∈ l1, q.game_id ≠ g.game_id) (he : e.game_id = g.game_id) :
    registryInsert (l1 ++ e :: l2) g = l1 ++ g :: l2 := by
  induction l1 with
  | nil =>
    simp only [List.nil_append]
    unfold registryInsert
    rw [if_pos he]
  | cons r rest ih =>
    have hr := hl1 r (by simp)
    simp only [List.cons_append]
    unfold registryInsert
    rw [if_neg hr, ih (fun x hx => hl1 x (by simp [hx]))]

theorem registryInsert_append (gs : List GameInfo) (g : GameInfo)
    (h : ∀ q ∈ gs, q.game_id ≠ g.game_id) :
    registryInsert gs g = gs ++ [g] := by
  induction gs with
  | nil => rfl
  | cons r rest ih =>
    unfold registryInsert
    rw [if_neg (h r (by simp)), ih (fun x hx => h x (by simp [hx]))]
    simp

theorem registryInsert_length_le (gs : List GameInfo) (g : GameInfo) :
    (registryInsert gs g).length ≤ gs.length + 1 := by
  induction gs with
  | nil => simp [registryInsert]
  | cons r rest ih =>
    unfold registryInsert
    split
    · simp
    · simpa using Nat.succ_le_succ ih

theorem registryInsert_filter (gs : List GameInfo) (g : GameInfo) (gid : Nat)
    (hgid : g.game_id = gid)
    (h : (gs.filter (fun e => e.game_id == gid)).length ≤ 1) :
    (registryInsert gs g).filter (fun e => e.game_id == gid) = [g] := by
  induction gs with
  | nil => simp [registryInsert, hgid]
  | cons r rest ih =>
    unfold registryInsert
    by_cases hr : r.game_id = g.game_id
    · rw [if_pos hr]
      have hrest : rest.filter (fun e => e.game_id == gid) = [] := by
        have h2 : (r :: rest.filter (fun e => e.game_id == gid)).length ≤ 1 := by
          rw [← List.filter_cons_of_pos (by simp [hr, hgid])]
          exact h
        simp only [List.length_cons] at h2
        exact List.eq_nil_of_length_eq_zero (by omega)
      simp [hrest, hgid]
    · rw [if_neg hr]
      rw [List.filter_cons_of_neg (by simp [hr, ← hgid])]
      refine ih ?_
      rw [List.filter_cons_of_neg (by simp [hr, ← hgid])] at h
      exact h

theorem nat_lor_eq_zero {a b : Nat} (h : Nat.lor a b = 0) : a = 0 ∧ b = 0 := by
  have h0 : a ||| b = 0 := h
  constructor
  · refine Nat.zero_of_testBit_eq_false (fun i => ?_)
    have h2 := congrArg (fun n => Nat.testBit n i) h0
    simp only [Nat.testBit_lor, Nat.zero_testBit, Bool.or_eq_false_iff] at h2
    exact h2.1
  · refine Nat.zero_of_testBit_eq_false (fun i => ?_)
    have h2 := congrArg (fun n => Nat.testBit n i) h0
    simp only [Nat.testBit_lor, Nat.zero_testBit, Bool.or_eq_false_iff] at h2
    exact h2.2

/-! ## Claim theorems: roster and dispatch -/

/-- C3: Roster capacity invariant.  In every session state reachable from
`network_init` through the public API the roster holds at most 8
(`NETWORK_MAX_PLAYERS`) peers; and a join request arriving at a hosting
session whose roster already holds 8 peers is ignored: no peer is added, no
join response is sent, no callback fires, and the context (hence
`player_count`) is unchanged. -/
theorem C3_roster_capacity :
    (∀ c, Reachable c → c.players.length ≤ NETWORK_MAX_PLAYERS) ∧
    (∀ c cbs src data ts localIp sOk, c.state = .hosting → c.is_host = true →
      c.players.length = NETWORK_MAX_PLAYERS →
      network_handle_message c cbs src MSG_JOIN_REQUEST data ts localIp sOk =
        (c, [], [])) := by
  constructor
  · intro c h
    exact (inv_reachable c h).1
  · intro c cbs src data ts localIp sOk hs hh hlen
    refine handle_join_request_rejected c cbs src data ts localIp sOk ?_
    intro hcon
    have h2 := hcon.2
    rw [hlen] at h2
    exact lt_irrefl _ h2

/-- Witness for C3: the fresh context is reachable with an empty roster, and
a full 8-peer hosting roster rejects a further join request. -/
theorem C3_roster_capacity_witness :
    (initCtx 0).players.length ≤ NETWORK_MAX_PLAYERS ∧
    hostFullCtx.state = .hosting ∧ hostFullCtx.is_host = true ∧
    hostFullCtx.players.length = NETWORK_MAX_PLAYERS ∧
    network_handle_message hostFullCtx cbsAll demoAddr MSG_JOIN_REQUEST [65]
      0 0 true = (hostFullCtx, [], []) :=
  ⟨C3_roster_capacity.1 (initCtx 0) (Reachable.init 0), by decide, by decide,
   by decide,
   C3_roster_capacity.2 hostFullCtx cbsAll demoAddr [65] 0 0 true (by decide)
     (by decide) (by decide)⟩

/-- C10: No admission dedup by address.  The join-request handler checks only
the host flag and remaining capacity and performs no lookup by sender
address: even when the sender's address and port already match a roster
entry, a further join request appends another entry (with a freshly generated
id recorded under the sender's address) and fires `on_player_joined` again. -/
theorem C10_no_admission_dedup (c : NetworkContext) (cbs : CallbackSet)
    (src : Addr) (data : List Nat) (ts localIp : Nat) (sOk : Bool)
    (hh : c.is_host = true) (hlen : c.players.length < NETWORK_MAX_PLAYERS)
    (hdup : ∃ q ∈ c.players, q.ip_address = src.ip ∧ q.port = src.port) :
    (network_handle_message c cbs src MSG_JOIN_REQUEST data ts localIp
        sOk).1.players = c.players ++ [joinNewPlayer c src data ts] ∧
    (network_handle_message c cbs src MSG_JOIN_REQUEST data ts localIp
        sOk).1.players.length = c.players.length + 1 ∧
    (joinNewPlayer c src data ts).player_id =
      network_generate_player_id ts c.id_counter ∧
    (joinNewPlayer c src data ts).ip_address = src.ip ∧
    (joinNewPlayer c src data ts).port = src.port ∧
    (cbs.on_player_joined = true →
      (network_handle_message c cbs src MSG_JOIN_REQUEST data ts localIp
          sOk).2.2 =
        [.playerJoined (joinPid c ts) (joinName data c.players.length)]) := by
  rw [handle_join_request_eq c cbs src data ts localIp sOk hh hlen]
  obtain ⟨x1, x2, x3, x4, x5, x6, x7⟩ :=
    coreEq_send_message (joinReqCtx c src data ts)
      (joinReqCtx c src data ts).server_socket src MSG_JOIN_RESPONSE
      (u32le (joinPid c ts)) sOk
  rw [handleJoinRequest_ctx, handleJoinRequest_events]
  refine ⟨?_, ?_, rfl, rfl, rfl, fun hcb => by rw [hcb]; rfl⟩
  · rw [x4]; rfl
  · rw [x4]; simp [joinReqCtx]

/-- Witness for C10: a second join request from the already-admitted address
adds a second roster entry and fires the callback again. -/
theorem C10_no_admission_dedup_witness :
    hostDupCtx.is_host = true ∧
    hostDupCtx.players.length < NETWORK_MAX_PLAYERS ∧
    (∃ q ∈ hostDupCtx.players,
      q.ip_address = demoAddr.ip ∧ q.port = demoAddr.port) ∧
    (network_handle_message hostDupCtx cbsAll demoAddr MSG_JOIN_REQUEST [67]
        0 0 true).1.players =
      hostDupCtx.players ++ [joinNewPlayer hostDupCtx demoAddr [67] 0] :=
  ⟨by decide, by decide, by decide,
   (C10_no_admission_dedup hostDupCtx cbsAll demoAddr [67] 0 0 true
     (by decide) (by decide) (by decide)).1⟩

/-- C9: Peer removal lifecycle.  A player-disconnect message whose sender
address and port match a roster entry fires `on_peer_left` exactly once (when
registered) with the first matching entry's id, removes that entry compacting
the rest in order, decreases the roster size by exactly one, and sends
nothing; when no entry matches, the context, the wire and the callbacks are
untouched. -/
theorem C9_peer_removal (c : NetworkContext) (cbs : CallbackSet) (src : Addr)
    (data : List Nat) (ts localIp : Nat) (sOk : Bool) :
    (∀ l1 q l2, c.players = l1 ++ q :: l2 →
      (∀ r ∈ l1, ¬(r.ip_address = src.ip ∧ r.port = src.port)) →
      q.ip_address = src.ip → q.port = src.port →
      (network_handle_message c cbs src MSG_PLAYER_DISCONNECT data ts localIp
          sOk).1.players = l1 ++ l2 ∧
      (network_handle_message c cbs src MSG_PLAYER_DISCONNECT data ts localIp
          sOk).1.players.length + 1 = c.players.length ∧
      (cbs.on_player_left = true →
        (network_handle_message c cbs src MSG_PLAYER_DISCONNECT data ts
            localIp sOk).2.2 = [.playerLeft q.player_id]) ∧
      (network_handle_message c cbs src MSG_PLAYER_DISCONNECT data ts localIp
          sOk).2.1 = []) ∧
    ((∀ r ∈ c.players, ¬(r.ip_address = src.ip ∧ r.port = src.port)) →
      network_handle_message c cbs src MSG_PLAYER_DISCONNECT data ts localIp
        sOk = (c, [], [])) := by
  constructor
  · intro l1 q l2 hps hl1 hip hport
    rw [handle_player_disconnect_eq, hps,
      rosterRemove_first_match cbs.on_player_left l1 q l2 src.ip src.port hl1
        ⟨hip, hport⟩]
    refine ⟨rfl, by simp; omega, fun hcb => by rw [hcb]; simp, rfl⟩
  · intro hno
    rw [handle_player_disconnect_eq,
      rosterRemove_no_match cbs.on_player_left c.players src.ip src.port hno]

/-- Witness for C9: removing the only roster entry by its address, and a
non-matching address leaving everything unchanged. -/
theorem C9_peer_removal_witness :
    hostDupCtx.players = [] ++
      { player_id := 7, name := [66], hostname := 3232235521,
        ip_address := 3232235521, port := 40000, last_ping := 0,
        connected := true } :: [] ∧
    (network_handle_message hostDupCtx cbsAll demoAddr MSG_PLAYER_DISCONNECT
        [] 0 0 true).1.players = [] ++ [] ∧
    (network_handle_message hostDupCtx cbsAll demoAddr MSG_PLAYER_DISCONNECT
        [] 0 0 true).2.2 = [.playerLeft 7] ∧
    network_handle_message hostDupCtx cbsAll demoHost MSG_PLAYER_DISCONNECT
      [] 0 0 true = (hostDupCtx, [], []) := by
  have h1 := (C9_peer_removal hostDupCtx cbsAll demoAddr [] 0 0 true).1 []
    { player_id := 7, name := [66], hostname := 3232235521,
      ip_address := 3232235521, port := 40000, last_ping := 0,
      connected := true } [] (by decide) (by decide) (by decide) (by decide)
  exact ⟨by decide, h1.1, h1.2.2.1 (by decide),
    (C9_peer_removal hostDupCtx cbsAll demoHost [] 0 0 true).2 (by decide)⟩

/-- C4 (amended): Discovery registry dedup and capacity.  For a received
discovery response of the right size: while the registry holds fewer than 16
entries, a response whose session id matches an existing entry overwrites
that entry in place with the latest values (refreshing `last_seen`), and a
response with a new session id is appended; but — contrary to the original
claim — once the registry holds 16 entries every response is dropped
unprocessed, matching id or not.  Two responses with the same session id
arriving at a registry with at most 14 entries (and at most one existing
entry for that id) leave exactly one entry for the id, holding the latest
values. -/
theorem C4_registry_dedup (c : NetworkContext) (cbs : CallbackSet)
    (src : Addr) (d1 d2 : List Nat) (ts1 ts2 localIp : Nat) (sOk : Bool) :
    (c.discovered_games.length < 16 → d1.length = GAME_INFO_SIZE →
      ∀ l1 e l2, c.discovered_games = l1 ++ e :: l2 →
        (∀ q ∈ l1, q.game_id ≠ (parseGameInfo d1).game_id) →
        e.game_id = (parseGameInfo d1).game_id →
        (network_handle_message c cbs src MSG_DISCOVERY_RESPONSE d1 ts1
            localIp sOk).1.discovered_games =
          l1 ++ refreshSeen (parseGameInfo d1) ts1 :: l2) ∧
    (c.discovered_games.length < 16 → d1.length = GAME_INFO_SIZE →
      (∀ q ∈ c.discovered_games, q.game_id ≠ (parseGameInfo d1).game_id) →
      (network_handle_message c cbs src MSG_DISCOVERY_RESPONSE d1 ts1 localIp
          sOk).1.discovered_games =
        c.discovered_games ++ [refreshSeen (parseGameInfo d1) ts1]) ∧
    (¬ c.discovered_games.length < 16 →
      network_handle_message c cbs src MSG_DISCOVERY_RESPONSE d1 ts1 localIp
        sOk = (c, [], [])) ∧
    (c.discovered_games.length ≤ 14 → d1.length = GAME_INFO_SIZE →
      d2.length = GAME_INFO_SIZE →
      (parseGameInfo d2).game_id = (parseGameInfo d1).game_id →
      (c.discovered_games.filter
        (fun e => e.game_id == (parseGameInfo d1).game_id)).length ≤ 1 →
      ((network_handle_message
          (network_handle_message c cbs src MSG_DISCOVERY_RESPONSE d1 ts1
            localIp sOk).1
          cbs src MSG_DISCOVERY_RESPONSE d2 ts2 localIp sOk).1.discovered_games.filter
        (fun e => e.game_id == (parseGameInfo d1).game_id)) =
        [refreshSeen (parseGameInfo d2) ts2]) := by
  refine ⟨?_, ?_, ?_, ?_⟩
  · intro hcap h1 l1 e l2 hdec hl1 he
    rw [handle_discovery_response_eq c cbs src d1 ts1 localIp sOk h1 hcap]
    show registryInsert c.discovered_games (refreshSeen (parseGameInfo d1) ts1) = _
    rw [hdec]
    exact registryInsert_found l1 e l2 (refreshSeen (parseGameInfo d1) ts1) hl1 he
  · intro hcap h1 hno
    rw [handle_discovery_response_eq c cbs src d1 ts1 localIp sOk h1 hcap]
    show registryInsert c.discovered_games (refreshSeen (parseGameInfo d1) ts1) = _
    exact registryInsert_append c.discovered_games
      (refreshSeen (parseGameInfo d1) ts1) hno
  · intro hfull
    exact handle_discovery_response_drop c cbs src d1 ts1 localIp sOk
      (fun hcon => hfull hcon.2)
  · intro hcap h1 h2 hid hfilt
    have hc1 : c.discovered_games.length < 16 := by omega
    rw [handle_discovery_response_eq c cbs src d1 ts1 localIp sOk h1 hc1]
    have hlen2 : (registryInsert c.discovered_games
        (refreshSeen (parseGameInfo d1) ts1)).length < 16 :=
      lt_of_le_of_lt (registryInsert_length_le _ _) (by omega)
    rw [handle_discovery_response_eq _ cbs src d2 ts2 localIp sOk h2 hlen2]
    show ((registryInsert (registryInsert c.discovered_games
        (refreshSeen (parseGameInfo d1) ts1))
        (refreshSeen (parseGameInfo d2) ts2)).filter
        (fun e => e.game_id == (parseGameInfo d1).game_id)) = _
    refine registryInsert_filter _ _ _ hid ?_
    rw [registryInsert_filter c.discovered_games
      (refreshSeen (parseGameInfo d1) ts1) (parseGameInfo d1).game_id rfl hfilt]
    simp

/-- Counterexample for C4 as stated: with the registry already holding 16
entries, a discovery response matching the existing entry with game id 1 but
carrying `current_players` 5 is dropped unprocessed instead of being
overwritten in place: all 16 entries still show `current_players` 1. -/
theorem C4_registry_dedup_counterexample :
    regFullCtx.discovered_games.length = 16 ∧
    (∃ e ∈ regFullCtx.discovered_games,
      e.game_id = (parseGameInfo dupRespPayload).game_id) ∧
    (parseGameInfo dupRespPayload).current_players = 5 ∧
    network_handle_message regFullCtx cbsNone demoAddr MSG_DISCOVERY_RESPONSE
      dupRespPayload 99 0 true = (regFullCtx, [], []) ∧
    regFullCtx.discovered_games.map (fun e => e.current_players) =
      List.replicate 16 1 := by
  refine ⟨by decide, by decide, by decide, ?_, by decide⟩
  exact handle_discovery_response_drop regFullCtx cbsNone demoAddr
    dupRespPayload 99 0 true (fun hcon => absurd hcon.2 (by decide))

/-- Witness for C4: on an empty registry the first response for game id 1 is
appended, and a second response for the same id leaves exactly one entry
holding the latest values. -/
theorem C4_registry_dedup_witness :
    (initCtx 0).discovered_games.length < 16 ∧
    dupRespPayload.length = GAME_INFO_SIZE ∧
    dupRespPayload2.length = GAME_INFO_SIZE ∧
    (parseGameInfo dupRespPayload2).game_id =
      (parseGameInfo dupRespPayload).game_id ∧
    (network_handle_message (initCtx 0) cbsNone demoAddr
        MSG_DISCOVERY_RESPONSE dupRespPayload 7 0 true).1.discovered_games =
      (initCtx 0).discovered_games ++
        [refreshSeen (parseGameInfo dupRespPayload) 7] ∧
    ((network_handle_message
        (network_handle_message (initCtx 0) cbsNone demoAddr
          MSG_DISCOVERY_RESPONSE dupRespPayload 7 0 true).1
        cbsNone demoAddr MSG_DISCOVERY_RESPONSE dupRespPayload2 9 0
        true).1.discovered_games.filter
      (fun e => e.game_id == (parseGameInfo dupRespPayload).game_id)) =
      [refreshSeen (parseGameInfo dupRespPayload2) 9] :=
  ⟨by decide, by decide, by decide, by decide,
   (C4_registry_dedup (initCtx 0) cbsNone demoAddr dupRespPayload
      dupRespPayload2 7 9 0 true).2.1 (by decide) (by decide) (by decide),
   (C4_registry_dedup (initCtx 0) cbsNone demoAddr dupRespPayload
      dupRespPayload2 7 9 0 true).2.2.2 (by decide) (by decide) (by decide)
     (by decide) (by decide)⟩

/-- C6: State gating of sends.  In every reachable `Disconnected` session
state, `network_send_game_state` — and likewise `network_send_turn_data`,
`network_send_chat`, `network_send_to_all` and `network_send_to_player` —
returns the failure indicator (success count 0 / false), transmits nothing
on the wire, and leaves the whole context (statistics included) unchanged;
the operations are total, so no crash is possible. -/
theorem C6_send_gating (c : NetworkContext) (h : Reachable c)
    (hd : c.state = .disconnected) :
    (∀ payload oks, network_send_game_state c payload oks = (c, [], 0)) ∧
    (∀ payload oks, network_send_turn_data c payload oks = (c, [], 0)) ∧
    (∀ msg oks, network_send_chat c msg oks = (c, [], 0)) ∧
    (∀ mtype payload oks, network_send_to_all c mtype payload oks = (c, [], 0)) ∧
    (∀ pid mtype payload ok,
      network_send_to_player c pid mtype payload ok = (c, [], false)) := by
  have hs : c.server_socket = none := ((inv_reachable c h).2.1 hd).1
  refine ⟨fun payload oks => ?_, fun payload oks => ?_, fun msg oks => ?_,
    fun mtype payload oks => ?_, fun pid mtype payload ok => ?_⟩ <;>
    simp [network_send_game_state, network_send_turn_data, network_send_chat,
      network_send_to_all, network_send_to_player, hs]

/-- Witness for C6: the freshly initialised (disconnected) context. -/
theorem C6_send_gating_witness :
    (initCtx 0).state = .disconnected ∧
    network_send_game_state (initCtx 0) [1, 2] okAll = (initCtx 0, [], 0) :=
  ⟨rfl, (C6_send_gating (initCtx 0) (Reachable.init 0) rfl).1 [1, 2] okAll⟩

/-- C7 (amended): Join completion.  A join-response received while
`Connecting` with a 4-byte payload advances the state to `Connected` and
installs the carried id as the local peer id; in any other state (or with a
payload of the wrong size) the context is unchanged.  The id the host
assigns is `(timestamp & 0xFFFFFF00) | (counter & 0xFF)`; it is non-zero
whenever the timestamp's bits 8..31 are not all zero or the counter is not a
multiple of 256, but — contrary to the original claim — it can be zero. -/
theorem C7_join_completion (c : NetworkContext) (cbs : CallbackSet)
    (src : Addr) (data : List Nat) (ts localIp : Nat) (sOk : Bool) :
    (c.state = .connecting → data.length = 4 →
      network_handle_message c cbs src MSG_JOIN_RESPONSE data ts localIp sOk =
        ({ c with local_player_id := readU32le data 0, state := .connected },
         [], [])) ∧
    (¬(c.state = .connecting ∧ data.length = 4) →
      network_handle_message c cbs src MSG_JOIN_RESPONSE data ts localIp sOk =
        (c, [], [])) ∧
    (∀ ts2 k, Nat.land (ts2 % 4294967296) 0xFFFFFF00 ≠ 0 ∨ k % 256 ≠ 0 →
      network_generate_player_id ts2 k ≠ 0) := by
  refine ⟨?_, ?_, ?_⟩
  · intro h1 h2
    exact handle_join_response_eq c cbs src data ts localIp sOk ⟨h1, h2⟩
  · intro h
    exact handle_join_response_skip c cbs src data ts localIp sOk h
  · intro ts2 k h hcon
    unfold network_generate_player_id at hcon
    obtain ⟨hz1, hz2⟩ := nat_lor_eq_zero hcon
    rcases h with h | h
    · exact h hz1
    · exact h hz2

/-- Counterexample for C7's non-zero part: at timestamp 0 (which the 32-bit
clock `(uint32_t)(time(NULL) * 1000)` attains, e.g. at Unix time
1610612736) with the static counter at a multiple of 256, the host admits a
peer with the assigned id 0 — the same value the engine uses for "unknown
sender". -/
theorem C7_join_completion_counterexample :
    network_generate_player_id 0 256 = 0 ∧
    (network_handle_message hostCtr256 cbsAll demoAddr MSG_JOIN_REQUEST [78]
        0 0 true).1.players.map (fun q => q.player_id) = [0] ∧
    (network_handle_message hostCtr256 cbsAll demoAddr MSG_JOIN_REQUEST [78]
        0 0 true).2.2 = [.playerJoined 0 [78]] :=
  ⟨by decide, by decide, by decide⟩

/-- Witness for C7 at a concrete connecting client and a concrete non-zero
id generation. -/
theorem C7_join_completion_witness :
    cStep2.state = .connecting ∧ (u32le 42).length = 4 ∧
    network_handle_message cStep2 cbsNone demoHost MSG_JOIN_RESPONSE
      (u32le 42) 0 0 true =
      ({ cStep2 with local_player_id := readU32le (u32le 42) 0, state := .connected },
       [], []) ∧
    network_generate_player_id 256 3 ≠ 0 :=
  ⟨by decide, by decide,
   (C7_join_completion cStep2 cbsNone demoHost (u32le 42) 0 0 true).1
     (by decide) (by decide),
   (C7_join_completion cStep2 cbsNone demoHost (u32le 42) 0 0 true).2.2 256 3
     (Or.inl (by decide))⟩

/-! ## Send lemmas and reachable concrete traces -/

theorem send_message_sends_ok (c : NetworkContext) (sock : Option Nat)
    (dest : Addr) (mtype : Nat) (payload : List Nat)
    (hp : payload.length ≤ NETWORK_MAX_MESSAGE_SIZE) (hs : sock.isSome = true) :
    (network_send_message c sock dest mtype payload true).2.1 =
      [⟨dest, mtype, payload⟩] := by
  unfold network_send_message
  rw [if_neg (by omega), if_pos (by simp [hs])]

theorem sendToAllLoop_sends_all_ok (ps : List NetworkPlayer)
    (c : NetworkContext) (i mtype : Nat) (payload : List Nat)
    (hp : payload.length ≤ NETWORK_MAX_MESSAGE_SIZE)
    (hs : c.server_socket.isSome = true) :
    (sendToAllLoop c ps i mtype payload (fun _ => true)).2.1 =
      (ps.filter (fun q => q.connected)).map
        (fun q => ⟨⟨q.ip_address, q.port⟩, mtype, payload⟩) := by
  induction ps generalizing c i with
  | nil => simp [sendToAllLoop]
  | cons q rest ih =>
    obtain ⟨x1, x2, x3, x4, x5, x6, x7⟩ := coreEq_send_message c c.server_socket
      ⟨q.ip_address, q.port⟩ mtype payload true
    unfold sendToAllLoop
    by_cases hq : q.connected = true
    · rw [if_pos hq, List.filter_cons_of_pos (by simp [hq]), List.map_cons]
      show (network_send_message c c.server_socket ⟨q.ip_address, q.port⟩
          mtype payload true).2.1 ++
        (sendToAllLoop (network_send_message c c.server_socket
          ⟨q.ip_address, q.port⟩ mtype payload true).1 rest (i+1) mtype
          payload (fun _ => true)).2.1 = _
      rw [send_message_sends_ok c c.server_socket ⟨q.ip_address, q.port⟩
          mtype payload hp hs,
        ih (network_send_message c c.server_socket ⟨q.ip_address, q.port⟩
          mtype payload true).1 (i+1) (by rw [x2]; exact hs)]
      rfl
    · rw [if_neg hq, List.filter_cons_of_neg (by simp [hq])]
      exact ih c (i+1) hs

theorem send_to_all_sends_all_ok (c : NetworkContext) (mtype : Nat)
    (payload : List Nat) (hp : payload.length ≤ NETWORK_MAX_MESSAGE_SIZE)
    (hs : c.server_socket.isSome = true) :
    (network_send_to_all c mtype payload (fun _ => true)).2.1 =
      (c.players.filter (fun q => q.connected)).map
        (fun q => ⟨⟨q.ip_address, q.port⟩, mtype, payload⟩) := by
  unfold network_send_to_all
  rw [if_neg (Option.ne_none_iff_isSome.mpr hs)]
  exact sendToAllLoop_sends_all_ok c.players c 0 mtype payload hp hs

theorem send_to_all_empty_roster (c : NetworkContext) (mtype : Nat)
    (payload : List Nat) (oks : Nat → Bool) (hp : c.players = []) :
    network_send_to_all c mtype payload oks = (c, [], 0) := by
  unfold network_send_to_all
  split_ifs with h
  · rfl
  · rw [hp]
    rfl

theorem reachable_hStep1 : Reachable hStep1 :=
  Reachable.update hStep0 cbsNone (.dgram joinReqFrame) .wouldBlock demoAddr
    demoAddr true true true 0 0
    (Reachable.host (initCtx 0) (some [65]) 7777 (some 3) true (some 4) true
      (Reachable.init 0))

theorem reachable_clientConnectedCtx : Reachable clientConnectedCtx :=
  Reachable.update cStep2 cbsNone (.dgram joinRespFrame) .wouldBlock demoHost
    demoAddr true true true 0 0
    (Reachable.join cStep1 (some demoHost) none (some 9) true
      (Reachable.startDiscovery cStep0 (some 7) true 0 (Reachable.init 0)))

/-- C8 (amended): Disconnect teardown.  `network_disconnect` is a no-op when
already `Disconnected`.  From `Hosting` it first best-effort-sends one
`MSG_PLAYER_DISCONNECT` to each connected roster entry, then closes both
sockets, clears the roster and leaves the state `Disconnected`.  From
`Connected` it performs the same teardown, but — contrary to the original
claim — sends nothing at all: a client's roster is empty (the host is never
a roster entry on the client side), so the host receives no notification. -/
theorem C8_disconnect_teardown (c : NetworkContext) (h : Reachable c) :
    (c.state = .disconnected → ∀ oks, network_disconnect c oks = (c, [])) ∧
    (c.state = .hosting →
      (network_disconnect c (fun _ => true)).2 =
        (c.players.filter (fun q => q.connected)).map
          (fun q => ⟨⟨q.ip_address, q.port⟩, MSG_PLAYER_DISCONNECT, []⟩) ∧
      (∀ m ∈ (network_disconnect c (fun _ => true)).2,
        m.mtype = MSG_PLAYER_DISCONNECT) ∧
      (network_disconnect c (fun _ => true)).1.state = .disconnected ∧
      (network_disconnect c (fun _ => true)).1.server_socket = none ∧
      (network_disconnect c (fun _ => true)).1.broadcast_socket = none ∧
      (network_disconnect c (fun _ => true)).1.players = []) ∧
    (c.state = .connected → ∀ oks,
      network_disconnect c oks = (resetCtx c, []) ∧
      (resetCtx c).state = .disconnected ∧ (resetCtx c).server_socket = none ∧
      (resetCtx c).broadcast_socket = none ∧ (resetCtx c).players = []) := by
  refine ⟨?_, ?_, ?_⟩
  · intro hd oks
    unfold network_disconnect
    rw [if_pos hd]
  · intro hh
    have hs : c.server_socket.isSome = true := (inv_reachable c h).2.2.2.2 hh
    have hnd : ¬ c.state = .disconnected := by
      rw [hh]; exact fun hcon => NetworkState.noConfusion hcon
    have hsends : (network_disconnect c (fun _ => true)).2 =
        (c.players.filter (fun q => q.connected)).map
          (fun q => ⟨⟨q.ip_address, q.port⟩, MSG_PLAYER_DISCONNECT, []⟩) := by
      unfold network_disconnect
      rw [if_neg hnd]
      unfold disconnectSends
      rw [if_pos (Or.inr hh)]
      exact send_to_all_sends_all_ok c MSG_PLAYER_DISCONNECT [] (by decide) hs
    refine ⟨hsends, ?_, ?_, ?_, ?_, ?_⟩
    · intro m hm
      rw [hsends] at hm
      obtain ⟨q, hq, rfl⟩ := List.mem_map.mp hm
      rfl
    all_goals
      unfold network_disconnect
      rw [if_neg hnd]
      rfl
  · intro hc oks
    have hpl : c.players = [] := ((inv_reachable c h).2.2.1 (Or.inr hc)).2
    have hnd : ¬ c.state = .disconnected := by
      rw [hc]; exact fun hcon => NetworkState.noConfusion hcon
    have hds : disconnectSends c oks = (c, [], 0) := by
      unfold disconnectSends
      rw [if_pos (Or.inl hc)]
      exact send_to_all_empty_roster c MSG_PLAYER_DISCONNECT [] oks hpl
    refine ⟨?_, rfl, rfl, rfl, rfl⟩
    unfold network_disconnect
    rw [if_neg hnd, hds]

/-- Counterexample for C8 as stated: a reachable connected client whose
disconnect sends no player-disconnect datagram at all — in particular none
to the host it is connected to — although it does tear the session down. -/
theorem C8_disconnect_counterexample :
    Reachable clientConnectedCtx ∧
    clientConnectedCtx.state = .connected ∧
    clientConnectedCtx.server_socket.isSome = true ∧
    (network_disconnect clientConnectedCtx okAll).2 = [] ∧
    (network_disconnect clientConnectedCtx okAll).1.state = .disconnected :=
  ⟨reachable_clientConnectedCtx, by decide, by decide, by decide, by decide⟩

/-- Witness for C8: a reachable host with one admitted peer notifies that
peer on disconnect and tears down; the fresh context is a disconnect no-op. -/
theorem C8_disconnect_teardown_witness :
    hStep1.state = .hosting ∧
    (network_disconnect hStep1 (fun _ => true)).2 =
      (hStep1.players.filter (fun q => q.connected)).map
        (fun q => ⟨⟨q.ip_address, q.port⟩, MSG_PLAYER_DISCONNECT, []⟩) ∧
    (network_disconnect hStep1 (fun _ => true)).1.state = .disconnected ∧
    (initCtx 0).state = .disconnected ∧
    network_disconnect (initCtx 0) okAll = (initCtx 0, []) :=
  ⟨by decide,
   ((C8_disconnect_teardown hStep1 reachable_hStep1).2.1 (by decide)).1,
   ((C8_disconnect_teardown hStep1 reachable_hStep1).2.1 (by decide)).2.2.1,
   rfl,
   (C8_disconnect_teardown (initCtx 0) (Reachable.init 0)).1 rfl okAll⟩

/-! ## Frame lemmas for the per-tick update -/

theorem frameEq_refl (c : NetworkContext) : FrameEq c c := ⟨rfl, rfl, rfl⟩

theorem frameEq_trans {a b c : NetworkContext} (h1 : FrameEq a b)
    (h2 : FrameEq b c) : FrameEq a c :=
  ⟨h2.1.trans h1.1, h2.2.1.trans h1.2.1, h2.2.2.trans h1.2.2⟩

theorem frameEq_of_coreEq {a b : NetworkContext} (h : CoreEq a b) :
    FrameEq a b :=
  ⟨h.2.2.1, h.2.2.2.2.1, h.2.2.2.2.2.1⟩

theorem frame_handle_message (c : NetworkContext) (cbs : CallbackSet)
    (src : Addr) (mtype : Nat) (data : List Nat) (ts localIp : Nat)
    (sOk : Bool) :
    FrameEq c (network_handle_message c cbs src mtype data ts localIp sOk).1 := by
  unfold network_handle_message
  by_cases h1 : mtype = MSG_DISCOVERY_REQUEST
  · rw [if_pos h1]
    by_cases h2 : c.is_host = true ∧ c.state = .hosting
    · rw [if_pos h2]
      exact frameEq_of_coreEq (coreEq_send_message _ _ _ _ _ _)
    · rw [if_neg h2]; exact frameEq_refl c
  rw [if_neg h1]
  by_cases h3 : mtype = MSG_DISCOVERY_RESPONSE
  · rw [if_pos h3]
    by_cases h4 : data.length = GAME_INFO_SIZE ∧ c.discovered_games.length < 16
    · rw [if_pos h4]; exact ⟨rfl, rfl, rfl⟩
    · rw [if_neg h4]; exact frameEq_refl c
  rw [if_neg h3]
  by_cases h5 : mtype = MSG_JOIN_REQUEST
  · rw [if_pos h5]
    by_cases h6 : c.is_host = true ∧ c.players.length < NETWORK_MAX_PLAYERS
    · rw [if_pos h6]
      exact frameEq_trans (b := joinReqCtx c src data ts) ⟨rfl, rfl, rfl⟩
        (frameEq_of_coreEq (coreEq_send_message _ _ _ _ _ _))
    · rw [if_neg h6]; exact frameEq_refl c
  rw [if_neg h5]
  by_cases h7 : mtype = MSG_JOIN_RESPONSE
  · rw [if_pos h7]
    by_cases h8 : c.state = .connecting ∧ data.length = 4
    · rw [if_pos h8]; exact ⟨rfl, rfl, rfl⟩
    · rw [if_neg h8]; exact frameEq_refl c
  rw [if_neg h7]
  by_cases h9 : mtype = MSG_GAME_DATA
  · rw [if_pos h9]
    by_cases h10 : cbs.on_game_data = true
    · rw [if_pos h10]; exact frameEq_refl c
    · rw [if_neg h10]; exact frameEq_refl c
  rw [if_neg h9]
  by_cases h11 : mtype = MSG_CHAT
  · rw [if_pos h11]
    by_cases h12 : cbs.on_chat = true ∧ data ≠ []
    · rw [if_pos h12]; exact frameEq_refl c
    · rw [if_neg h12]; exact frameEq_refl c
  rw [if_neg h11]
  by_cases h13 : mtype = MSG_PLAYER_DISCONNECT
  · rw [if_pos h13]; exact ⟨rfl, rfl, rfl⟩
  rw [if_neg h13]
  exact frameEq_refl c

theorem frame_updateRecvStep (c : NetworkContext) (sock : Option Nat)
    (cbs : CallbackSet) (r : RecvIn) (src : Addr) (ok : Bool)
    (ts localIp : Nat) :
    FrameEq c (updateRecvStep c sock cbs r src ok ts localIp).1 := by
  unfold updateRecvStep
  rcases sock with _ | s
  · exact frameEq_refl c
  · rcases hr : (network_receive_message c r).2 with _ | _ | ⟨t, p⟩
    · exact frameEq_of_coreEq (coreEq_receive_message c r)
    · exact frameEq_of_coreEq (coreEq_receive_message c r)
    · exact frameEq_trans (frameEq_of_coreEq (coreEq_receive_message c r))
        (frame_handle_message _ cbs src t p ts localIp ok)

theorem frame_updStep2 (c : NetworkContext) (cbs : CallbackSet) (rs rb : RecvIn)
    (srcS srcB : Addr) (okS okB : Bool) (localIp ts : Nat) :
    FrameEq c (updStep2 c cbs rs rb srcS srcB okS okB localIp ts).1 :=
  frameEq_trans (frame_updateRecvStep c c.server_socket cbs rs srcS okS ts localIp)
    (frame_updateRecvStep _ _ cbs rb srcB okB ts localIp)

/-! ## Send-type classification lemmas -/

theorem send_message_mem (c : NetworkContext) (sock : Option Nat) (dest : Addr)
    (mtype : Nat) (payload : List Nat) (ok : Bool) :
    ∀ m ∈ (network_send_message c sock dest mtype payload ok).2.1,
      m = ⟨dest, mtype, payload⟩ := by
  intro m hm
  unfold network_send_message at hm
  split_ifs at hm <;> simp at hm
  exact hm

theorem handle_message_sends (c : NetworkContext) (cbs : CallbackSet)
    (src : Addr) (mtype : Nat) (data : List Nat) (ts localIp : Nat)
    (sOk : Bool) :
    ∀ m ∈ (network_handle_message c cbs src mtype data ts localIp sOk).2.1,
      m.mtype = MSG_DISCOVERY_RESPONSE ∨ m.mtype = MSG_JOIN_RESPONSE := by
  intro m hm
  unfold network_handle_message at hm
  by_cases h1 : mtype = MSG_DISCOVERY_REQUEST
  · rw [if_pos h1] at hm
    by_cases h2 : c.is_host = true ∧ c.state = .hosting
    · rw [if_pos h2] at hm
      rw [send_message_mem _ _ _ _ _ _ m hm]
      exact Or.inl rfl
    · rw [if_neg h2] at hm; exact absurd hm (by simp)
  rw [if_neg h1] at hm
  by_cases h3 : mtype = MSG_DISCOVERY_RESPONSE
  · rw [if_pos h3] at hm
    by_cases h4 : data.length = GAME_INFO_SIZE ∧ c.discovered_games.length < 16
    · rw [if_pos h4] at hm; exact absurd hm (by simp)
    · rw [if_neg h4] at hm; exact absurd hm (by simp)
  rw [if_neg h3] at hm
  by_cases h5 : mtype = MSG_JOIN_REQUEST
  · rw [if_pos h5] at hm
    by_cases h6 : c.is_host = true ∧ c.players.length < NETWORK_MAX_PLAYERS
    · rw [if_pos h6] at hm
      rw [send_message_mem _ _ _ _ _ _ m hm]
      exact Or.inr rfl
    · rw [if_neg h6] at hm; exact absurd hm (by simp)
  rw [if_neg h5] at hm
  by_cases h7 : mtype = MSG_JOIN_RESPONSE
  · rw [if_pos h7] at hm
    by_cases h8 : c.state = .connecting ∧ data.length = 4
    · rw [if_pos h8] at hm; exact absurd hm (by simp)
    · rw [if_neg h8] at hm; exact absurd hm (by simp)
  rw [if_neg h7] at hm
  by_cases h9 : mtype = MSG_GAME_DATA
  · rw [if_pos h9] at hm
    by_cases h10 : cbs.on_game_data = true
    · rw [if_pos h10] at hm; exact absurd hm (by simp)
    · rw [if_neg h10] at hm; exact absurd hm (by simp)
  rw [if_neg h9] at hm
  by_cases h11 : mtype = MSG_CHAT
  · rw [if_pos h11] at hm
    by_cases h12 : cbs.on_chat = true ∧ data ≠ []
    · rw [if_pos h12] at hm; exact absurd hm (by simp)
    · rw [if_neg h12] at hm; exact absurd hm (by simp)
  rw [if_neg h11] at hm
  by_cases h13 : mtype = MSG_PLAYER_DISCONNECT
  · rw [if_pos h13] at hm; exact absurd hm (by simp)
  rw [if_neg h13] at hm
  exact absurd hm (by simp)

theorem updateRecvStep_sends (c : NetworkContext) (sock : Option Nat)
    (cbs : CallbackSet) (r : RecvIn) (src : Addr) (ok : Bool)
    (ts localIp : Nat) :
    ∀ m ∈ (updateRecvStep c sock cbs r src ok ts localIp).2.1,
      m.mtype = MSG_DISCOVERY_RESPONSE ∨ m.mtype = MSG_JOIN_RESPONSE := by
  intro m hm
  unfold updateRecvStep at hm
  rcases sock with _ | s
  · exact absurd hm (by simp)
  · rcases hr : (network_receive_message c r).2 with _ | _ | ⟨t, p⟩ <;>
      rw [hr] at hm
    · exact absurd hm (by simp)
    · exact absurd hm (by simp)
    · exact handle_message_sends _ cbs src t p ts localIp ok m hm

theorem updateBroadcastStep_sends_cond (c : NetworkContext) (okD : Bool)
    (ts : Nat) :
    ∀ m ∈ (updateBroadcastStep c okD ts).2,
      m = ⟨broadcastAddr, MSG_DISCOVERY_REQUEST, []⟩ ∧
      c.broadcast_socket.isSome = true ∧ c.is_host = false ∧
      u32sub ts c.last_discovery_time > NETWORK_DISCOVERY_INTERVAL := by
  intro m hm
  unfold updateBroadcastStep at hm
  split_ifs at hm with hcond
  · simp only [Bool.and_eq_true, Bool.not_eq_true', decide_eq_true_eq] at hcond
    obtain ⟨⟨hb, hh⟩, ht⟩ := hcond
    refine ⟨?_, hb, hh, ht⟩
    unfold network_broadcast_discovery at hm
    rcases hbs : c.broadcast_socket with _ | s
    · rw [hbs] at hm; exact absurd hm (by simp)
    · rw [hbs] at hm
      exact send_message_mem _ _ _ _ _ _ m hm
  · exact absurd hm (by simp)

theorem updateBroadcastStep_sends_fire (c : NetworkContext) (ts : Nat)
    (hb : c.broadcast_socket.isSome = true) (hh : c.is_host = false)
    (ht : u32sub ts c.last_discovery_time > NETWORK_DISCOVERY_INTERVAL) :
    (updateBroadcastStep c true ts).2 =
      [⟨broadcastAddr, MSG_DISCOVERY_REQUEST, []⟩] := by
  unfold updateBroadcastStep
  rw [if_pos (by simp [hb, hh, ht])]
  show (network_broadcast_discovery c true).2.1 = _
  unfold network_broadcast_discovery
  rcases hbs : c.broadcast_socket with _ | s
  · rw [hbs] at hb; cases hb
  · exact send_message_sends_ok c (some s) broadcastAddr MSG_DISCOVERY_REQUEST
      [] (by decide) rfl

/-- C5 (amended): Discovery auto re-broadcast gating.  A discovery request
leaves `network_update` only when the session is not `Disconnected`, is not
the host, still holds the discovery socket, and more than
`NETWORK_DISCOVERY_INTERVAL` ms have elapsed since the last broadcast — but,
contrary to the original claim, being "not yet connected" is not required:
a fully `Connected` client whose discovery socket is still open keeps
re-broadcasting.  Conversely, under those conditions with a successful
`sendto`, the request is sent. -/
theorem C5_discovery_rebroadcast (c : NetworkContext) (cbs : CallbackSet)
    (rs rb : RecvIn) (srcS srcB : Addr) (okS okB okD : Bool)
    (localIp ts : Nat) :
    (∀ m ∈ (network_update c cbs rs rb srcS srcB okS okB okD localIp ts).2.1,
      m.mtype = MSG_DISCOVERY_REQUEST →
      ¬ c.state = .disconnected ∧ c.is_host = false ∧
      c.broadcast_socket.isSome = true ∧
      u32sub ts c.last_discovery_time > NETWORK_DISCOVERY_INTERVAL) ∧
    (¬ c.state = .disconnected → c.is_host = false →
      c.broadcast_socket.isSome = true →
      u32sub ts c.last_discovery_time > NETWORK_DISCOVERY_INTERVAL →
      okD = true →
      ⟨broadcastAddr, MSG_DISCOVERY_REQUEST, []⟩ ∈
        (network_update c cbs rs rb srcS srcB okS okB okD localIp ts).2.1) := by
  obtain ⟨f1, f2, f3⟩ := frame_updStep2 c cbs rs rb srcS srcB okS okB localIp ts
  constructor
  · intro m hm hmt
    unfold network_update at hm
    split_ifs at hm with hd
    · exact absurd hm (by simp)
    · refine ⟨hd, ?_⟩
      rcases List.mem_append.mp hm with hm12 | hm3
      · exfalso
        rcases List.mem_append.mp hm12 with hmA | hmB
        · rcases updateRecvStep_sends _ _ cbs rs srcS okS ts localIp m hmA with
            h | h <;> rw [hmt] at h <;> exact absurd h (by decide)
        · rcases updateRecvStep_sends _ _ cbs rb srcB okB ts localIp m hmB with
            h | h <;> rw [hmt] at h <;> exact absurd h (by decide)
      · obtain ⟨_, hb2, hh2, ht2⟩ :=
          updateBroadcastStep_sends_cond _ okD ts m hm3
        rw [f1] at hb2
        rw [f2] at hh2
        rw [f3] at ht2
        exact ⟨hh2, hb2, ht2⟩
  · intro hd hh hb ht hok
    subst hok
    unfold network_update
    rw [if_neg hd]
    have hfire := updateBroadcastStep_sends_fire
      (updStep2 c cbs rs rb srcS srcB okS okB localIp ts).1 ts
      (by rw [f1]; exact hb) (by rw [f2]; exact hh) (by rw [f3]; exact ht)
    show _ ∈ (updStep1 c cbs rs srcS okS localIp ts).2.1 ++
      (updStep2 c cbs rs rb srcS srcB okS okB localIp ts).2.1 ++
      (updateBroadcastStep
        (updStep2 c cbs rs rb srcS srcB okS okB localIp ts).1 true ts).2
    rw [hfire]
    simp

/-- Counterexample for C5 as stated: a reachable, fully `Connected` client
(whose discovery socket is still open) still sends a discovery request from
`network_update` once the interval has elapsed, although the claim allows
the re-broadcast only while not yet connected. -/
theorem C5_discovery_rebroadcast_counterexample :
    Reachable clientConnectedCtx ∧
    clientConnectedCtx.state = .connected ∧
    clientConnectedCtx.is_host = false ∧
    (network_update clientConnectedCtx cbsNone .wouldBlock .wouldBlock
        demoHost demoAddr true true true 0 2000).2.1 =
      [⟨broadcastAddr, MSG_DISCOVERY_REQUEST, []⟩] :=
  ⟨reachable_clientConnectedCtx, by decide, by decide, by decide⟩

/-- Witness for C5 at the concrete connected client and elapsed interval. -/
theorem C5_discovery_rebroadcast_witness :
    (¬ clientConnectedCtx.state = .disconnected) ∧
    clientConnectedCtx.is_host = false ∧
    clientConnectedCtx.broadcast_socket.isSome = true ∧
    u32sub 2000 clientConnectedCtx.last_discovery_time >
      NETWORK_DISCOVERY_INTERVAL ∧
    ⟨broadcastAddr, MSG_DISCOVERY_REQUEST, []⟩ ∈
      (network_update clientConnectedCtx cbsNone .wouldBlock .wouldBlock
        demoHost demoAddr true true true 0 2000).2.1 :=
  ⟨by decide, by decide, by decide, by decide,
   (C5_discovery_rebroadcast clientConnectedCtx cbsNone .wouldBlock
      .wouldBlock demoHost demoAddr true true true 0 2000).2 (by decide)
     (by decide) (by decide) (by decide) rfl⟩

end LibCirc
